import Mathlib

/-!
# AndyLibrary: offline caching layer

A shallow embedding of the two service workers of the repository
(`WebPages/service-worker.js` and `pwa-learning-example/service-worker.js`)
and proofs about their request routing, cache policies and lifecycle steps,
followed by the replacement loop of `GooglePagesDeployment/update-api-urls.js`
and the sign-in handler of `Standalone/JS/GoogleDriveAuth.js`.

Asynchronous code is embedded sequentially: a handler is a function from the
network behaviour and the cache storage before the call to the value its
promise settles with, the cache storage once every write it started has
landed or has been refused by the platform, and the list of network fetches it
issued.
-/

namespace AndyLibrary

/-! ## Platform data: requests, responses, values -/

/-- Body of a response: either plain text, or the text produced by
`JSON.stringify` on an object literal whose fields are all strings (kept as
the ordered list of its fields). -/
inductive Body where
  | text (s : String)
  | json (fields : List (String × String))
  deriving DecidableEq

/-- Value of a field of a JSON body; `none` for a text body or a missing field. -/
def Body.field (b : Body) (name : String) : Option String :=
  match b with
  | Body.text _ => none
  | Body.json fields => fields.lookup name

/-- Response snapshot: status code, header set as given by the code, and body. -/
structure Response where
  status : Nat
  headers : List (String × String)
  body : Body
  deriving DecidableEq

/-- The `ok` flag of a response: status in the range 200..299. -/
def Response.ok (r : Response) : Bool :=
  decide (200 ≤ r.status) && decide (r.status ≤ 299)

/-- The method `response.clone()`: a copy with the same status, headers and body. -/
def Response.clone (r : Response) : Response :=
  { status := r.status, headers := r.headers, body := r.body }

/-- The constructor `new Response(body, { status, headers })`. -/
def Response.new (body : Body) (status : Nat) (headers : List (String × String)) : Response :=
  { status := status, headers := headers, body := body }

/-- Status of a response built without a `status` entry in its init object. -/
def defaultStatus : Nat := 200

/-- Request descriptor. The URL is kept relative to the worker's origin, split
into `pathname` and `search` as `new URL(request.url)` exposes them. -/
structure Request where
  method : String
  pathname : String
  search : String
  mode : String
  headers : List (String × String)
  deriving DecidableEq

/-- Request built by the platform from a bare URL string, as in `fetch('/api/categories')`,
`cache.put('/x', r)` or `caches.match('/')`. -/
def Request.ofUrl (pathname : String) (search : String) : Request :=
  { method := "GET", pathname := pathname, search := search, mode := "cors", headers := [] }

/-- JavaScript `s.startsWith(p)`. -/
def startsWith (s p : String) : Bool := p.toList.isPrefixOf s.toList

/-- JavaScript `s.endsWith(p)`. -/
def endsWith (s p : String) : Bool := p.toList.isSuffixOf s.toList

/-- The JavaScript values that flow through the handlers' return positions:
`undefined`, a response object, or a promise (which fulfils with a response or
with `undefined`). -/
inductive Value where
  | undefined
  | response (r : Response)
  | promise (settled : Option Response)
  deriving DecidableEq

/-- JavaScript truthiness: `undefined` is falsy, every object (a response, a promise) is truthy. -/
def Value.truthy : Value → Bool
  | Value.undefined => false
  | Value.response _ => true
  | Value.promise _ => true

/-- JavaScript `a || b`. -/
def Value.or (a b : Value) : Value := if a.truthy then a else b

/-- What a promise resolved with the value settles to (`none` is `undefined`):
resolving with a promise adopts that promise's outcome. -/
def Value.settle : Value → Option Response
  | Value.undefined => none
  | Value.response r => some r
  | Value.promise s => s

/-- The value of an awaited lookup result: a response, or `undefined`. -/
def Value.ofOption : Option Response → Value
  | none => Value.undefined
  | some r => Value.response r

/-- Network behaviour: `fetch(request)` fulfils with a response (`some`), or
rejects with a transport error (`none`). -/
abbrev Network := Request → Option Response

/-! ## Cache Partition Store -/

/-- Identity of a request for caching purposes: method and URL. -/
def sameKey (a b : Request) : Bool :=
  decide (a.method = b.method) && decide (a.pathname = b.pathname) && decide (a.search = b.search)

/-- The platform Cache object (Cache API, outside the repository), as the data
model describes a partition: `(request-descriptor, response-snapshot)` pairs,
identity for caching purposes being (method, URL). -/
abbrev Cache := List (Request × Response)

/-- The platform CacheStorage (`caches`): a set of named partitions, kept in
creation order. -/
abbrev CacheStorage := List (String × Cache)

/-- Platform `cache.match(request)`: the snapshot stored for the
request's key, `none` (that is `undefined`) when there is none. -/
def Cache.matchReq (c : Cache) (request : Request) : Option Response :=
  (c.find? (fun e => sameKey e.1 request)).map (fun e => e.2)

/-- Split the characters `cs` at every occurrence of `sep`. -/
def splitOnChar (sep : Char) : List Char → List (List Char)
  | [] => [[]]
  | c :: cs =>
    if c = sep then [] :: splitOnChar sep cs
    else match splitOnChar sep cs with
      | [] => [[c]]
      | part :: parts => (c :: part) :: parts

/-- Strip leading and trailing spaces and tabs. -/
def trimBlanks (cs : List Char) : List Char :=
  ((cs.dropWhile (fun c => c = ' ' || c = '\t')).reverse.dropWhile
    (fun c => c = ' ' || c = '\t')).reverse

/-- Whether the response has a `Vary` header (name compared without case) with
the member `*` in its comma-separated value. -/
def Response.variesOnAll (r : Response) : Bool :=
  r.headers.any (fun h =>
    decide (h.1.toList.map Char.toLower = "vary".toList) &&
      (splitOnChar ',' h.2.toList).any (fun v => decide (trimBlanks v = ['*'])))

/-- The checks of the platform `cache.put(request, response)`: the call is
rejected with a `TypeError` unless the request method is `GET`, and it is
rejected when the response status is 206 or the response varies on `*`. -/
def Cache.accepts (request : Request) (response : Response) : Bool :=
  decide (request.method = "GET") && !decide (response.status = 206) &&
    !response.variesOnAll

/-- Platform `cache.put(request, response)`: when the platform accepts the pair,
the new snapshot for the key fully replaces the old one; when it rejects the
call nothing is stored (the workers never await the call, so the rejection
reaches no handler). -/
def Cache.put (c : Cache) (request : Request) (response : Response) : Cache :=
  if Cache.accepts request response then
    c.filter (fun e => !sameKey e.1 request) ++ [(request, response)]
  else c

/-- Platform `caches.keys()`: the names of the existing partitions. -/
def CacheStorage.keys (cs : CacheStorage) : List String := cs.map (fun e => e.1)

/-- Platform `caches.open(name)`: partitions are created lazily,
so opening a missing partition creates it empty. -/
def CacheStorage.openCache (cs : CacheStorage) (name : String) : CacheStorage :=
  if name ∈ cs.keys then cs else cs ++ [(name, [])]

/-- Contents of the partition called `name`, `none` when it does not exist. -/
def CacheStorage.partition (cs : CacheStorage) (name : String) : Option Cache :=
  cs.lookup name

/-- Lookup `cache.match(request)` through the handle of the partition called `name`. -/
def CacheStorage.matchIn (cs : CacheStorage) (name : String) (request : Request) :
    Option Response :=
  match cs.partition name with
  | some c => c.matchReq request
  | none => none

/-- Write `cache.put(request, response)` through the handle of the partition called `name`. -/
def CacheStorage.putIn (cs : CacheStorage) (name : String) (request : Request)
    (response : Response) : CacheStorage :=
  cs.map (fun e => if e.1 = name then (e.1, Cache.put e.2 request response) else e)

/-- Platform `caches.match(request)`: the first snapshot found for
the request's key over all partitions in creation order. -/
def CacheStorage.matchAny (cs : CacheStorage) (request : Request) : Option Response :=
  cs.findSome? (fun e => Cache.matchReq e.2 request)

/-- Platform `caches.delete(name)`. -/
def CacheStorage.delete (cs : CacheStorage) (name : String) : CacheStorage :=
  cs.filter (fun e => !decide (e.1 = name))

/-- Platform `cache.addAll(urls)` through the handle of the partition
called `name`. Every URL is fetched; when every fetch fulfils with an ok response
that the cache accepts, all of them are stored, otherwise the call rejects
(`none`) and stores nothing. -/
def CacheStorage.addAllIn (net : Network) (cs : CacheStorage) (name : String)
    (urls : List String) : Option CacheStorage :=
  if urls.all (fun u => match net (Request.ofUrl u "") with
                        | some r => r.ok && Cache.accepts (Request.ofUrl u "") r
                        | none => false)
  then some (urls.foldl (fun acc u => match net (Request.ofUrl u "") with
                                       | some r => acc.putIn name (Request.ofUrl u "") r
                                       | none => acc) cs)
  else none

/-- How the promise handed to `event.respondWith` settles: fulfilled with a value
(`none` is `undefined`), or rejected with the error of a failed fetch. -/
inductive Settled where
  | fulfilled (value : Option Response)
  | rejected
  deriving DecidableEq

/-- What a fetch handler did: how its promise settles, the cache storage
afterwards, and the network fetches issued. -/
structure Outcome where
  result : Settled
  caches : CacheStorage
  fetches : List Request
  deriving DecidableEq

/-- Result of the promise handed to `event.waitUntil` by an `install` listener:
whether it rejects, whether `self.skipWaiting()` was called, and the cache
storage afterwards. -/
structure InstallResult where
  rejected : Bool
  skipWaiting : Bool
  caches : CacheStorage
  deriving DecidableEq

/-! ## WebPages/service-worker.js -/

namespace WebPages

def CACHE_NAME : String := "andylibrary-v1.0.0"
def API_CACHE : String := "andylibrary-api-v1.0.0"
def THUMBNAIL_CACHE : String := "andylibrary-thumbnails-v1.0.0"

/-- The constant `PDF_CACHE`, local to `handlePdfRequest`. -/
def PDF_CACHE : String := "andylibrary-pdfs-v1.0.0"

/-- Core files for offline functionality. -/
def CORE_FILES : List String :=
  ["/", "/pdf-reader.html", "/static/assets/AndyLibrary.png",
   "/static/styles/desktop-library.css", "/static/scripts/desktop-library.js",
   "/manifest.json"]

/-- The `install` listener, with the module constant `CACHE_NAME` as a parameter:
open the cache, `addAll(CORE_FILES)`, then `skipWaiting()`; a trailing `.catch`
logs the error and fulfils. -/
def installWith (cacheName : String) (net : Network) (cs : CacheStorage) : InstallResult :=
  let cs1 := cs.openCache cacheName
  match cs1.addAllIn net cacheName CORE_FILES with
  | some cs2 => { rejected := false, skipWaiting := true, caches := cs2 }
  | none => { rejected := false, skipWaiting := false, caches := cs1 }

/-- The `install` listener of this version of the worker. -/
def install (net : Network) (cs : CacheStorage) : InstallResult :=
  installWith CACHE_NAME net cs

/-- The `activate` listener, with the module constants `CACHE_NAME`, `API_CACHE` and
`THUMBNAIL_CACHE` as parameters: for every existing cache name, delete the cache
when the name is none of the three. -/
def activateWith (cacheNameConst apiCache thumbnailCache : String) (cs : CacheStorage) :
    CacheStorage :=
  cs.keys.foldl
    (fun acc cacheName =>
      if cacheName ≠ cacheNameConst ∧ cacheName ≠ apiCache ∧ cacheName ≠ thumbnailCache
      then acc.delete cacheName else acc)
    cs

/-- The `activate` listener of this version of the worker. -/
def activate (cs : CacheStorage) : CacheStorage :=
  activateWith CACHE_NAME API_CACHE THUMBNAIL_CACHE cs

/-- The handler `handlePdfRequest(request)`. -/
def handlePdfRequest (net : Network) (cs : CacheStorage) (request : Request) : Outcome :=
  let cs1 := cs.openCache PDF_CACHE
  match cs1.matchIn PDF_CACHE request with
  | some cached => { result := Settled.fulfilled (some cached), caches := cs1, fetches := [] }
  | none =>
    match net request with
    | some response =>
      if response.ok then
        { result := Settled.fulfilled (some response),
          caches := cs1.putIn PDF_CACHE request response.clone, fetches := [request] }
      else { result := Settled.fulfilled (some response), caches := cs1, fetches := [request] }
    | none =>
      { result := Settled.fulfilled (some (Response.new (Body.text "PDF unavailable offline") 503
                            [("Content-Type", "text/plain")])),
        caches := cs1, fetches := [request] }

/-- The handler `handleThumbnailRequest(request)`. -/
def handleThumbnailRequest (net : Network) (cs : CacheStorage) (request : Request) : Outcome :=
  let cs1 := cs.openCache THUMBNAIL_CACHE
  match cs1.matchIn THUMBNAIL_CACHE request with
  | some cached => { result := Settled.fulfilled (some cached), caches := cs1, fetches := [] }
  | none =>
    match net request with
    | some response =>
      if response.ok then
        { result := Settled.fulfilled (some response),
          caches := cs1.putIn THUMBNAIL_CACHE request response.clone, fetches := [request] }
      else { result := Settled.fulfilled (some response), caches := cs1, fetches := [request] }
    | none =>
      { result := Settled.fulfilled
          (some (Response.new (Body.text "Thumbnail unavailable") 404 [])),
        caches := cs1, fetches := [request] }

/-- The handler `handleApiRequest(request)`. -/
def handleApiRequest (net : Network) (cs : CacheStorage) (request : Request) : Outcome :=
  match net request with
  | some response =>
    if response.ok then
      let cs1 := cs.openCache API_CACHE
      { result := Settled.fulfilled (some response),
        caches := cs1.putIn API_CACHE request response.clone, fetches := [request] }
    else { result := Settled.fulfilled (some response), caches := cs, fetches := [request] }
  | none =>
    let cs1 := cs.openCache API_CACHE
    match cs1.matchIn API_CACHE request with
    | some cached => { result := Settled.fulfilled (some cached), caches := cs1, fetches := [request] }
    | none =>
      { result := Settled.fulfilled (some (Response.new
          (Body.json [("error", "Offline - data not available"),
                      ("message", "Connect to internet to sync latest content")])
          503 [("Content-Type", "application/json")])),
        caches := cs1, fetches := [request] }

/-- The handler `handleStaticRequest(request)`. In the `catch` branch of a navigation
request the returned expression is `caches.match('/') || new Response('Offline')`,
whose left operand is the promise returned by `caches.match`, not its result. -/
def handleStaticRequest (net : Network) (cs : CacheStorage) (request : Request) : Outcome :=
  let cs1 := cs.openCache CACHE_NAME
  match cs1.matchIn CACHE_NAME request with
  | some cached => { result := Settled.fulfilled (some cached), caches := cs1, fetches := [] }
  | none =>
    match net request with
    | some response =>
      if response.ok then
        { result := Settled.fulfilled (some response),
          caches := cs1.putIn CACHE_NAME request response.clone, fetches := [request] }
      else { result := Settled.fulfilled (some response), caches := cs1, fetches := [request] }
    | none =>
      if request.mode = "navigate" then
        { result := Settled.fulfilled
            (Value.or (Value.promise (cs1.matchAny (Request.ofUrl "/" "")))
              (Value.response (Response.new (Body.text "Offline") defaultStatus []))).settle,
          caches := cs1, fetches := [request] }
      else
        { result := Settled.fulfilled
            (some (Response.new (Body.text "Resource unavailable offline") 404 [])),
          caches := cs1, fetches := [request] }

/-- The four handlers the `fetch` listener dispatches to. -/
inductive Handler where
  | pdf
  | thumbnail
  | api
  | static
  deriving DecidableEq

/-- The routing of the `fetch` listener on `url.pathname`. -/
def route (pathname : String) : Handler :=
  if startsWith pathname "/api/books/" && endsWith pathname "/pdf" then Handler.pdf
  else if startsWith pathname "/api/thumbnails/" then Handler.thumbnail
  else if startsWith pathname "/api/" then Handler.api
  else Handler.static

/-- Run the handler selected by the router. -/
def Handler.run (h : Handler) (net : Network) (cs : CacheStorage) (request : Request) :
    Outcome :=
  match h with
  | Handler.pdf => handlePdfRequest net cs request
  | Handler.thumbnail => handleThumbnailRequest net cs request
  | Handler.api => handleApiRequest net cs request
  | Handler.static => handleStaticRequest net cs request

/-- The `fetch` listener: `event.respondWith` of the handler chosen for the path. -/
def fetchListener (net : Network) (cs : CacheStorage) (request : Request) : Outcome :=
  (route request.pathname).run net cs request

end WebPages


/-! ## pwa-learning-example/service-worker.js -/

namespace PwaExample

def CACHE_NAME : String := "andylibrary-v1"
def EDUCATIONAL_MISSION_CACHE : String := "educational-content-v1"

/-- Critical files for offline educational access. -/
def CORE_CACHE_FILES : List String :=
  ["/", "/bowersworld.html", "/auth.html", "/setup.html", "/static/css/style.css",
   "/static/js/app.js", "/static/icons/icon-192.png", "/static/icons/icon-512.png"]

/-- Educational content to cache for offline access. -/
def EDUCATIONAL_CACHE_FILES : List String :=
  ["/api/categories", "/api/books/featured", "/api/books/offline-essentials"]

/-- The `install` listener, with the module constants `CACHE_NAME` and
`EDUCATIONAL_MISSION_CACHE` as parameters: `Promise.all` of the two pre-warming
chains (each opens its cache and calls `addAll`), then `skipWaiting()`; there is
no `catch`. -/
def installWith (cacheName educationalCache : String) (net : Network) (cs : CacheStorage) :
    InstallResult :=
  let cs1 := (cs.openCache cacheName).openCache educationalCache
  let core := cs1.addAllIn net cacheName CORE_CACHE_FILES
  let cs2 := core.getD cs1
  let educational := cs2.addAllIn net educationalCache EDUCATIONAL_CACHE_FILES
  let cs3 := educational.getD cs2
  if core.isSome && educational.isSome then
    { rejected := false, skipWaiting := true, caches := cs3 }
  else { rejected := true, skipWaiting := false, caches := cs3 }

/-- The `install` listener of this version of the worker. -/
def install (net : Network) (cs : CacheStorage) : InstallResult :=
  installWith CACHE_NAME EDUCATIONAL_MISSION_CACHE net cs

/-- The `activate` listener, with the module constants `CACHE_NAME` and
`EDUCATIONAL_MISSION_CACHE` as parameters: for every existing cache name, delete
the cache when the name is neither of the two. -/
def activateWith (cacheNameConst educationalCache : String) (cs : CacheStorage) :
    CacheStorage :=
  cs.keys.foldl
    (fun acc cacheName =>
      if cacheName ≠ cacheNameConst ∧ cacheName ≠ educationalCache
      then acc.delete cacheName else acc)
    cs

/-- The `activate` listener of this version of the worker. -/
def activate (cs : CacheStorage) : CacheStorage :=
  activateWith CACHE_NAME EDUCATIONAL_MISSION_CACHE cs

/-- The template literal of the offline page built in the HTML branch, line by line. -/
def offlineDocumentLines : List String :=
  [
    "",
    "                <!DOCTYPE html>",
    "                <html>",
    "                <head>",
    "                  <title>AndyLibrary - Offline</title>",
    "                  <meta name=\x22viewport\x22 content=\x22width=device-width, initial-scale=1.0\x22>",
    "                  <style>",
    "                    body \x7b font-family: Arial; text-align: center; padding: 50px; \x7d",
    "                    .offline \x7b color: #667eea; \x7d",
    "                  </style>",
    "                </head>",
    "                <body>",
    "                  <div class=\x22offline\x22>",
    "                    <h1>📚 AndyLibrary</h1>",
    "                    <h2>Educational Mission Continues Offline</h2>",
    "                    <p>You\x27re currently offline, but cached educational content is still available.</p>",
    "                    <p><strong>Mission:</strong> Getting education into the hands of people who can least afford it!</p>",
    "                    <button onclick=\x22location.reload()\x22>🔄 Try Again</button>",
    "                  </div>",
    "                </body>",
    "                </html>",
    "              " ]

/-- The synthesized offline page of the HTML branch. -/
def offlineDocument : String := String.intercalate "\n" offlineDocumentLines

/-- The chain `fetch(event.request).then(response => ...)` shared by the three
branches: on an ok response a clone is put into the cache called `name`
(opened at that moment), and the response is returned; a transport error
leaves the chain rejected (`none`). -/
def fetchAndStore (net : Network) (cs : CacheStorage) (name : String) (request : Request) :
    Option Response × CacheStorage :=
  match net request with
  | some response =>
    if response.ok then
      (some response, (cs.openCache name).putIn name request response.clone)
    else (some response, cs)
  | none => (none, cs)

/-- Branch for educational API requests (`/api/books`, `/api/categories`). -/
def educationalApiBranch (net : Network) (cs : CacheStorage) (request : Request) : Outcome :=
  match cs.matchAny request with
  | some response => { result := Settled.fulfilled (some response), caches := cs, fetches := [] }
  | none =>
    match fetchAndStore net cs EDUCATIONAL_MISSION_CACHE request with
    | (some response, cs1) =>
      { result := Settled.fulfilled (some response), caches := cs1, fetches := [request] }
    | (none, cs1) =>
      { result := Settled.fulfilled (some (Response.new
          (Body.json [("error", "offline"),
                      ("message", "Educational content temporarily unavailable. Check your internet connection."),
                      ("cached_content", "Available in offline mode")])
          defaultStatus [("Content-Type", "application/json")])),
        caches := cs1, fetches := [request] }

/-- Branch for static files; its fetch chain has no `catch`. -/
def staticBranch (net : Network) (cs : CacheStorage) (request : Request) : Outcome :=
  match cs.matchAny request with
  | some response => { result := Settled.fulfilled (some response), caches := cs, fetches := [] }
  | none =>
    match fetchAndStore net cs CACHE_NAME request with
    | (some response, cs1) =>
      { result := Settled.fulfilled (some response), caches := cs1, fetches := [request] }
    | (none, cs1) => { result := Settled.rejected, caches := cs1, fetches := [request] }

/-- Branch for HTML pages: network first, then the cache, then the cached `/`,
then the synthesized offline page. -/
def htmlBranch (net : Network) (cs : CacheStorage) (request : Request) : Outcome :=
  match fetchAndStore net cs CACHE_NAME request with
  | (some response, cs1) =>
    { result := Settled.fulfilled (some response), caches := cs1, fetches := [request] }
  | (none, cs1) =>
    match cs1.matchAny request with
    | some response =>
      { result := Settled.fulfilled (some response), caches := cs1, fetches := [request] }
    | none =>
      { result := Settled.fulfilled
          (Value.or (Value.ofOption (cs1.matchAny (Request.ofUrl "/" "")))
            (Value.response (Response.new (Body.text offlineDocument) defaultStatus
              [("Content-Type", "text/html")]))).settle,
        caches := cs1, fetches := [request] }

/-- The `fetch` listener; `none` when it returns without calling `event.respondWith`. -/
def fetchListener (net : Network) (cs : CacheStorage) (request : Request) : Option Outcome :=
  if request.method = "GET" then
    if startsWith request.pathname "/api/books" || startsWith request.pathname "/api/categories"
    then some (educationalApiBranch net cs request)
    else if startsWith request.pathname "/static/" || endsWith request.pathname ".css" ||
            endsWith request.pathname ".js" || endsWith request.pathname ".png" ||
            endsWith request.pathname ".ico"
    then some (staticBranch net cs request)
    else if endsWith request.pathname ".html" || request.pathname = "/"
    then some (htmlBranch net cs request)
    else none
  else none

end PwaExample


/-! ## Sample inputs -/

namespace Samples

def pdfRequest : Request :=
  { method := "GET", pathname := "/api/books/7/pdf", search := "", mode := "cors", headers := [] }

def thumbnailRequest : Request :=
  { method := "GET", pathname := "/api/thumbnails/7", search := "", mode := "no-cors",
    headers := [] }

def apiRequest : Request :=
  { method := "GET", pathname := "/api/categories", search := "", mode := "cors", headers := [] }

def staticRequest : Request :=
  { method := "GET", pathname := "/static/styles/desktop-library.css", search := "",
    mode := "no-cors", headers := [] }

def pageRequest : Request :=
  { method := "GET", pathname := "/about.html", search := "", mode := "navigate", headers := [] }

def snapshot : Response :=
  { status := 200, headers := [("Content-Type", "text/plain")], body := Body.text "stored" }

def fresh : Response :=
  { status := 200, headers := [("Content-Type", "text/plain")], body := Body.text "fresh" }

/-- A network on which every fetch rejects with a transport error. -/
def offline : Network := fun _ => none

/-- A network on which every fetch fulfils with the ok response `fresh`. -/
def online : Network := fun _ => some fresh

/-- A storage in which each partition of the WebPages worker holds `snapshot` for
the sample request of its handler. -/
def warmStorage : CacheStorage :=
  [(WebPages.CACHE_NAME, [(staticRequest, snapshot)]),
   (WebPages.API_CACHE, [(apiRequest, snapshot)]),
   (WebPages.THUMBNAIL_CACHE, [(thumbnailRequest, snapshot)]),
   (WebPages.PDF_CACHE, [(pdfRequest, snapshot)])]

/-- A storage holding the partitions of the `v1` workers (the PDF partition of the
WebPages worker included), a foreign partition and partitions of a `v2` version. -/
def mixedStorage : CacheStorage :=
  [(PwaExample.CACHE_NAME, [(pageRequest, snapshot)]),
   (PwaExample.EDUCATIONAL_MISSION_CACHE, [(apiRequest, snapshot)]),
   ("andylibrary-v2", [(pageRequest, fresh)]),
   (WebPages.CACHE_NAME, [(staticRequest, snapshot)]),
   (WebPages.PDF_CACHE, [(pdfRequest, snapshot)]),
   ("andylibrary-v2.0.0", [(staticRequest, fresh)]),
   ("other-app-cache", [])]

/-- A network on which only `/manifest.json` and `/api/categories` fail. -/
def flaky : Network := fun request =>
  if request.pathname = "/manifest.json" ∨ request.pathname = "/api/categories" then none
  else some fresh

end Samples

/-! ## Properties stated as checks -/

/-- The offline contract for API misses as the specification words it: the
promise fulfils with a response of status 503 whose JSON body has the `error`
field `"offline"` and a `message` field. -/
def meetsOfflineContract (out : Outcome) : Bool :=
  match out.result with
  | Settled.fulfilled (some r) =>
    decide (r.status = 503) && decide (r.body.field "error" = some "offline") &&
      (r.body.field "message").isSome
  | _ => false

/-- Pre-warming of the entry `u` fails: its fetch rejects, or fulfils with a
response that is not ok. -/
def prewarmFails (net : Network) (u : String) : Bool :=
  match net (Request.ofUrl u "") with
  | some r => !r.ok
  | none => true

/-! ## Background sync -/

/-- What a background sync routine did: whether its `catch` branch ran, whether it
logged its success message, the cache storage afterwards, and the network
fetches issued. -/
structure SyncResult where
  caught : Bool
  loggedSuccess : Bool
  caches : CacheStorage
  fetches : List Request
  deriving DecidableEq

namespace WebPages

/-- The routine `syncLibraryData()`: `Promise.all` of two fetches inside a `try`;
when both fulfil and every response is ok a success message is logged; a
rejected fetch leads to the `catch` branch, which logs the error. No cache is
opened or written. -/
def syncLibraryData (net : Network) (cs : CacheStorage) : SyncResult :=
  let requests := [Request.ofUrl "/api/categories" "",
                   Request.ofUrl "/api/books/search" "?limit=100"]
  let responses := requests.map net
  if responses.all (fun r => r.isSome) then
    { caught := false,
      loggedSuccess := responses.all (fun r => match r with
                                               | some x => x.ok
                                               | none => false),
      caches := cs, fetches := requests }
  else { caught := true, loggedSuccess := false, caches := cs, fetches := requests }

/-- The `sync` listener: `syncLibraryData()` when the tag is `library-sync`;
`none` when the listener does nothing. -/
def syncListener (tag : String) (net : Network) (cs : CacheStorage) : Option SyncResult :=
  if tag = "library-sync" then some (syncLibraryData net cs) else none

/-- The name of the cache each handler opens: `PDF_CACHE` in `handlePdfRequest`,
`THUMBNAIL_CACHE` in `handleThumbnailRequest`, `API_CACHE` in `handleApiRequest`,
`CACHE_NAME` in `handleStaticRequest`. -/
def Handler.cacheName : Handler → String
  | Handler.pdf => PDF_CACHE
  | Handler.thumbnail => THUMBNAIL_CACHE
  | Handler.api => API_CACHE
  | Handler.static => CACHE_NAME

end WebPages

namespace PwaExample

/-- The callback of `responses.forEach` in `updateEducationalContent`: a settled
fetch that is fulfilled (`some`) with an ok response is put under `urls[index]`
(`url`, `none` when the index is out of range). -/
def storeSettled (cs : CacheStorage) (url : Option String) (response : Option Response) :
    CacheStorage :=
  match response with
  | some value =>
    if value.ok then
      match url with
      | some u => cs.putIn EDUCATIONAL_MISSION_CACHE (Request.ofUrl u "") value.clone
      | none => cs
    else cs
  | none => cs

/-- The routine `updateEducationalContent()`: open the educational cache,
`Promise.allSettled` of three fetches, then store every fulfilled ok response
under the URL of the same index; the success message is logged afterwards.
`allSettled` never rejects, so the `catch` branch is not taken. -/
def updateEducationalContent (net : Network) (cs : CacheStorage) : SyncResult :=
  let cs1 := cs.openCache EDUCATIONAL_MISSION_CACHE
  let requests := [Request.ofUrl "/api/books/featured" "",
                   Request.ofUrl "/api/categories" "",
                   Request.ofUrl "/api/books/offline-essentials" ""]
  let responses := requests.map net
  let urls := ["/api/books/featured", "/api/categories", "/api/books/offline-essentials"]
  let cs2 := responses.enum.foldl
    (fun acc entry => storeSettled acc (urls.get? entry.1) entry.2) cs1
  { caught := false, loggedSuccess := true, caches := cs2, fetches := requests }

/-- The `sync` listener: `updateEducationalContent()` when the tag is
`educational-content-sync`; `none` when the listener does nothing. -/
def syncListener (tag : String) (net : Network) (cs : CacheStorage) : Option SyncResult :=
  if tag = "educational-content-sync" then some (updateEducationalContent net cs) else none

end PwaExample

/-! ## GooglePagesDeployment/update-api-urls.js -/

namespace UpdateApiUrls

/-- The list `localUrls` of the replacement loop. -/
def localUrls : List String :=
  ["/api/", "http://127.0.0.1:8081/api/", "http://localhost:8081/api/"]

/-- Left-to-right scan of `content.replace(regex, replacement)` for a global
regex that matches the text `pat` literally (every special character of the
pattern is escaped by the script): at a match the replacement is emitted and
the matched characters are skipped (`skip` counts those still to skip). -/
def replaceAllAux (pat rep : List Char) : Nat → List Char → List Char
  | _, [] => []
  | skip + 1, _ :: cs => replaceAllAux pat rep skip cs
  | 0, c :: cs =>
    if pat.isPrefixOf (c :: cs) then rep ++ replaceAllAux pat rep (pat.length - 1) cs
    else c :: replaceAllAux pat rep 0 cs

/-- The call `content.replace(regex, replacement)` with the literal global regex
for `pat`; the replacement text is taken literally. -/
def replaceAll (content pat rep : String) : String :=
  String.mk (replaceAllAux pat.toList rep.toList 0 content.toList)

/-- Whether `pat` occurs in the characters `cs`. -/
def occursIn (pat : List Char) : List Char → Bool
  | [] => pat.isPrefixOf []
  | c :: cs => pat.isPrefixOf (c :: cs) || occursIn pat cs

/-- The test `content.match(regex)` used as a condition: `pat` occurs in `content`. -/
def contentMatches (content pat : String) : Bool := occursIn pat.toList content.toList

/-- The callback of `localUrls.forEach`, on the pair `(content, changed)`. -/
def replaceLocalUrl (backendUrl : String) (state : String × Bool) (localUrl : String) :
    String × Bool :=
  if contentMatches state.1 localUrl then
    (replaceAll state.1 localUrl (backendUrl ++ "/api/"), true)
  else state

/-- The replacement loop over `localUrls` for one file: the new content and the
flag `changed`. -/
def updateContent (backendUrl content : String) : String × Bool :=
  localUrls.foldl (replaceLocalUrl backendUrl) (content, false)

/-- The content the header comment of the script describes: every occurrence of a
local API URL (the longest match at each position) is replaced by the backend
URL followed by `/api/`, in one pass over the original content. -/
def intendedAux (rep : List Char) : Nat → List Char → List Char
  | _, [] => []
  | skip + 1, _ :: cs => intendedAux rep skip cs
  | 0, c :: cs =>
    if "http://127.0.0.1:8081/api/".toList.isPrefixOf (c :: cs) then
      rep ++ intendedAux rep ("http://127.0.0.1:8081/api/".toList.length - 1) cs
    else if "http://localhost:8081/api/".toList.isPrefixOf (c :: cs) then
      rep ++ intendedAux rep ("http://localhost:8081/api/".toList.length - 1) cs
    else if "/api/".toList.isPrefixOf (c :: cs) then
      rep ++ intendedAux rep ("/api/".toList.length - 1) cs
    else c :: intendedAux rep 0 cs

/-- The content described by the header comment, as a string. -/
def intendedContent (backendUrl content : String) : String :=
  String.mk (intendedAux (backendUrl ++ "/api/").toList 0 content.toList)

end UpdateApiUrls

/-! ## Further sample inputs and checks -/

namespace Samples

/-- An API request carrying a bearer credential, as `GetLatestDatabaseVersion` of
`GoogleDriveAuth.js` issues it. -/
def authorizedRequest : Request :=
  { method := "GET", pathname := "/api/sync/updates", search := "", mode := "cors",
    headers := [("Authorization", "Bearer secret-token")] }

/-- A request that matches none of the `/api/` patterns and no file suffix. -/
def otherRequest : Request :=
  { method := "GET", pathname := "/uploads/report", search := "", mode := "cors",
    headers := [] }

/-- A non-GET request. -/
def postRequest : Request :=
  { method := "POST", pathname := "/api/books", search := "", mode := "cors", headers := [] }

/-- A response that is not ok. -/
def notFound : Response :=
  { status := 404, headers := [], body := Body.text "missing" }

/-- The answer to a ranged download: status 206 with a `Content-Range`. -/
def partialContent : Response :=
  { status := 206,
    headers := [("Content-Type", "application/pdf"), ("Content-Range", "bytes 0-4/10")],
    body := Body.text "%PDF-" }

/-- A network on which every fetch fulfils with `partialContent`. -/
def ranged : Network := fun _ => some partialContent

/-- A network on which every fetch fulfils with the response `notFound`. -/
def missing : Network := fun _ => some notFound

/-- A storage in which the educational partition of the pwa-learning-example
worker holds `snapshot` for `/api/categories`, the key of the sample API request. -/
def educationalStorage : CacheStorage :=
  [(PwaExample.EDUCATIONAL_MISSION_CACHE,
    [(Request.ofUrl "/api/categories" "", snapshot)])]

/-- The backend URL of the usage example in the script's header. -/
def backendUrl : String := "https://andylibrary-api.herokuapp.com"

/-- A line of an HTML file calling the local backend by its absolute URL. -/
def htmlLine : String := "fetch(\x22http://127.0.0.1:8081/api/books\x22)"

end Samples

/-- Whether a stored entry (request descriptor and snapshot) carries an
`Authorization` value. -/
def entryHasAuthorization (e : Request × Response) : Bool :=
  (e.1.headers.lookup "Authorization").isSome || (e.2.headers.lookup "Authorization").isSome

/-! ## Standalone/JS/GoogleDriveAuth.js: sign-in -/

namespace GoogleDriveAuth

/-- A JavaScript value as far as the sign-in code looks at it: a field of the
decoded payload, stored as is in `currentUser` (`other` keeps the JSON text of
an array or a nested object). -/
inductive JsValue where
  | undefined
  | null
  | bool (b : Bool)
  | number (n : Int)
  | string (s : String)
  | other (json : String)
  deriving DecidableEq

/-- What `JSON.parse` returns: `null`, a value without own fields for the sign-in
code (number, string, boolean, array), or an object with its fields. -/
inductive Parsed where
  | null
  | primitive (v : JsValue)
  | object (fields : List (String × JsValue))
  deriving DecidableEq

/-- Property access `payload.key`: a `TypeError` on `null` (`none`), `undefined`
for a missing property. -/
def Parsed.get (payload : Parsed) (key : String) : Option JsValue :=
  match payload with
  | Parsed.null => none
  | Parsed.primitive _ => some JsValue.undefined
  | Parsed.object fields => some ((fields.lookup key).getD JsValue.undefined)

/-- The platform functions `ParseJWT` calls, each `none` where it throws: `atob`
(base64 decoding), `decodeURIComponent` and `JSON.parse`. -/
structure Platform where
  atob : String → Option String
  decodeURIComponent : String → Option String
  jsonParse : String → Option Parsed

/-- JavaScript `s.split('.')` on the characters of `s`. -/
def splitDots : List Char → List (List Char)
  | [] => [[]]
  | c :: cs =>
    if c = '.' then [] :: splitDots cs
    else match splitDots cs with
      | [] => [[c]]
      | part :: parts => (c :: part) :: parts

/-- The two global replacements of `ParseJWT`: every `-` becomes `+`, then every
`_` becomes `/`. -/
def toBase64 (base64Url : List Char) : List Char :=
  (base64Url.map (fun c => if c = '-' then '+' else c)).map
    (fun c => if c = '_' then '/' else c)

/-- The callback of `.map` in `ParseJWT`:
`'%' + ('00' + c.charCodeAt(0).toString(16)).slice(-2)`. -/
def percentEncodeChar (c : Char) : List Char :=
  let padded := ['0', '0'] ++ Nat.toDigits 16 c.toNat
  '%' :: padded.drop (padded.length - 2)

/-- The body of the `try` block of `ParseJWT(token)`; `none` when it throws. A
missing credential (`token` undefined) makes `token.split` throw, and a token
without a second part makes `base64Url.replace` throw. -/
def decodeJWT (P : Platform) (token : Option String) : Option Parsed :=
  match token with
  | none => none
  | some t =>
    match (splitDots t.toList).get? 1 with
    | none => none
    | some base64Url =>
      match P.atob (String.mk (toBase64 base64Url)) with
      | none => none
      | some binary =>
        match P.decodeURIComponent
            (String.mk (binary.toList.map percentEncodeChar).flatten) with
        | none => none
        | some jsonPayload => P.jsonParse jsonPayload

/-- The method `ParseJWT(token)`: the decoded payload, and in the `catch` branch
(after logging the error) the empty object `{}`. -/
def ParseJWT (P : Platform) (token : Option String) : Parsed :=
  match decodeJWT P token with
  | some payload => payload
  | none => Parsed.object []

/-- The object assigned to `this.currentUser`. -/
structure User where
  id : JsValue
  email : JsValue
  name : JsValue
  imageUrl : JsValue
  emailVerified : JsValue
  deriving DecidableEq

/-- The fields of a `GoogleDriveAuth` instance the sign-in handler writes
(`currentUser` is `none` for `null`). -/
structure AuthState where
  isSignedIn : Bool
  currentUser : Option User
  deriving DecidableEq

/-- A call of one of the event handlers. -/
inductive Event where
  | onSignInSuccess (user : User)
  | onSignInError
  deriving DecidableEq

/-- The instance state after a call and the event handlers invoked, in order. -/
structure HandleResult where
  state : AuthState
  events : List Event
  deriving DecidableEq

/-- The argument Google Identity Services passes to the callback; `credential` is
`none` when the property is missing. -/
structure CredentialResponse where
  credential : Option String
  deriving DecidableEq

/-- The user object built from the payload, field by field; `none` when a
property access throws. -/
def userOfPayload (payload : Parsed) : Option User :=
  match payload.get "sub", payload.get "email", payload.get "name", payload.get "picture",
    payload.get "email_verified" with
  | some id, some email, some name, some picture, some verified =>
    some { id := id, email := email, name := name, imageUrl := picture,
           emailVerified := verified }
  | _, _, _, _, _ => none

/-- The method `HandleCredentialResponse(response)`. `successThrows` tells whether
the (overridable) handler `OnSignInSuccess` throws on a user; the handler of the
class itself only logs, that is `fun _ => false`. -/
def HandleCredentialResponse (P : Platform) (successThrows : User → Bool) (st : AuthState)
    (response : CredentialResponse) : HandleResult :=
  let payload := ParseJWT P response.credential
  match userOfPayload payload with
  | none => { state := st, events := [Event.onSignInError] }
  | some user =>
    let signedIn : AuthState := { isSignedIn := true, currentUser := some user }
    if successThrows user then
      { state := signedIn, events := [Event.onSignInSuccess user, Event.onSignInError] }
    else { state := signedIn, events := [Event.onSignInSuccess user] }

/-- The state set by the constructor: not signed in, no current user. -/
def initialState : AuthState := { isSignedIn := false, currentUser := none }

/-- The user object built from the empty payload `{}`. -/
def emptyUser : User :=
  { id := JsValue.undefined, email := JsValue.undefined, name := JsValue.undefined,
    imageUrl := JsValue.undefined, emailVerified := JsValue.undefined }

end GoogleDriveAuth

/-! ## Lemmas on the Cache Partition Store -/

theorem sameKey_self (r : Request) : sameKey r r = true := by
  simp [sameKey]

theorem Response.clone_eq (r : Response) : r.clone = r := rfl

theorem Cache.matchReq_put_self (c : Cache) (request : Request) (r : Response)
    (ha : Cache.accepts request r = true) :
    (Cache.put c request r).matchReq request = some r := by
  have h : (c.filter (fun e => !sameKey e.1 request)).find?
      (fun e => sameKey e.1 request) = none := by
    simp [List.find?_eq_none, List.mem_filter]
  simp [Cache.put, ha, Cache.matchReq, List.find?_append, h, sameKey_self]

theorem Cache.put_of_rejected (c : Cache) (request : Request) (r : Response)
    (ha : Cache.accepts request r = false) : Cache.put c request r = c := by
  simp [Cache.put, ha]

theorem CacheStorage.mem_keys_iff (cs : CacheStorage) (name : String) :
    name ∈ cs.keys ↔ (cs.partition name).isSome = true := by
  induction cs with
  | nil => simp [CacheStorage.keys, CacheStorage.partition]
  | cons e rest ih =>
    obtain ⟨k, v⟩ := e
    simp only [CacheStorage.keys, CacheStorage.partition] at ih ⊢
    by_cases hk : name = k
    · subst hk; simp [List.lookup]
    · have hk2 : (name == k) = false := by simpa using hk
      simp [List.lookup, hk2, hk, ih]

theorem CacheStorage.openCache_of_partition (cs : CacheStorage) (name : String) (c : Cache)
    (h : cs.partition name = some c) : cs.openCache name = cs := by
  have hk : name ∈ cs.keys := (cs.mem_keys_iff name).2 (by simp [h])
  simp [CacheStorage.openCache, hk]

theorem CacheStorage.partition_append_new (cs : CacheStorage) (name n : String) (c : Cache)
    (h : name ∉ cs.keys) :
    CacheStorage.partition (cs ++ [(name, c)]) n
      = if n = name then some c else cs.partition n := by
  induction cs with
  | nil =>
    by_cases hn : n = name
    · subst hn; simp [CacheStorage.partition, List.lookup]
    · have hn2 : (n == name) = false := by simpa using hn
      simp [CacheStorage.partition, List.lookup, hn2, hn]
  | cons e rest ih =>
    obtain ⟨k, v⟩ := e
    have hk : name ≠ k := by
      intro hk; apply h; simp [CacheStorage.keys, hk]
    have hrest : name ∉ CacheStorage.keys rest := by
      intro hm; apply h; simp only [CacheStorage.keys] at hm ⊢; simp [hm]
    have ih2 := ih hrest
    simp only [CacheStorage.partition] at ih2 ⊢
    by_cases hn : n = k
    · subst hn
      have : ¬ n = name := fun hh => hk hh.symm
      simp [List.lookup, this]
    · have hn2 : (n == k) = false := by simpa using hn
      simp [List.lookup, hn2, ih2]

theorem CacheStorage.partition_openCache (cs : CacheStorage) (name n : String) :
    (cs.openCache name).partition n
      = if n = name then some ((cs.partition name).getD []) else cs.partition n := by
  by_cases hk : name ∈ cs.keys
  · have hs := (cs.mem_keys_iff name).1 hk
    obtain ⟨c, hc⟩ := Option.isSome_iff_exists.1 hs
    rw [cs.openCache_of_partition name c hc]
    by_cases hn : n = name
    · subst hn; simp [hc]
    · simp [hn]
  · have hnone : cs.partition name = none := by
      cases hp : cs.partition name with
      | none => rfl
      | some c => exact absurd ((cs.mem_keys_iff name).2 (by simp [hp])) hk
    simp only [CacheStorage.openCache, hk, if_false]
    rw [cs.partition_append_new name n [] hk]
    simp [hnone]

theorem CacheStorage.matchIn_openCache (cs : CacheStorage) (name n : String)
    (request : Request) :
    (cs.openCache name).matchIn n request = cs.matchIn n request := by
  simp only [CacheStorage.matchIn, cs.partition_openCache name n]
  by_cases hn : n = name
  · subst hn
    cases hp : cs.partition n <;> simp [Cache.matchReq]
  · simp [hn]

theorem lookup_cons_ite {β : Type} (n k : String) (v : β) (rest : List (String × β)) :
    List.lookup n ((k, v) :: rest) = if n = k then some v else List.lookup n rest := by
  by_cases hn : n = k
  · subst hn; simp [List.lookup]
  · have hn2 : (n == k) = false := by simpa using hn
    simp [List.lookup, hn2, hn]

theorem CacheStorage.partition_putIn (cs : CacheStorage) (name n : String)
    (request : Request) (r : Response) :
    (cs.putIn name request r).partition n
      = if n = name then (cs.partition name).map (fun c => Cache.put c request r)
        else cs.partition n := by
  induction cs with
  | nil => simp [CacheStorage.putIn, CacheStorage.partition]
  | cons e rest ih =>
    obtain ⟨k, v⟩ := e
    simp only [CacheStorage.putIn, CacheStorage.partition] at ih ⊢
    rw [List.map_cons]
    by_cases hk : k = name
    · rw [if_pos hk]; simp only [lookup_cons_ite, ih]
      subst hk
      by_cases hn : n = k
      · subst hn; simp
      · simp [hn]
    · rw [if_neg hk]; simp only [lookup_cons_ite, ih]
      by_cases hn : n = k
      · subst hn
        have hk2 : ¬ name = n := fun hh => hk hh.symm
        simp [hk, hk2]
      · by_cases hn3 : n = name
        · subst hn3
          simp [hn]
        · simp [hn, hn3]

theorem CacheStorage.matchIn_putIn_self (cs : CacheStorage) (name : String)
    (request : Request) (r : Response) (h : (cs.partition name).isSome = true)
    (ha : Cache.accepts request r = true) :
    (cs.putIn name request r).matchIn name request = some r := by
  obtain ⟨c, hc⟩ := Option.isSome_iff_exists.1 h
  simp [CacheStorage.matchIn, cs.partition_putIn name name request r, hc,
    Cache.matchReq_put_self c request r ha]

theorem CacheStorage.putIn_of_rejected (cs : CacheStorage) (name : String)
    (request : Request) (r : Response) (ha : Cache.accepts request r = false) :
    cs.putIn name request r = cs := by
  induction cs with
  | nil => rfl
  | cons e rest ih =>
    obtain ⟨k, v⟩ := e
    simp only [CacheStorage.putIn, List.map_cons] at ih ⊢
    rw [ih]
    by_cases he : k = name
    · simp [he, Cache.put_of_rejected _ request r ha]
    · simp [he]

theorem CacheStorage.isSome_partition_openCache (cs : CacheStorage) (name : String) :
    ((cs.openCache name).partition name).isSome = true := by
  simp [cs.partition_openCache name name]

theorem CacheStorage.matchIn_some_partition (cs : CacheStorage) (name : String)
    (request : Request) (r : Response) (h : cs.matchIn name request = some r) :
    ∃ c, cs.partition name = some c := by
  cases hp : cs.partition name with
  | none => simp [CacheStorage.matchIn, hp] at h
  | some c => exact ⟨c, rfl⟩

theorem CacheStorage.openCache_of_matchIn (cs : CacheStorage) (name : String)
    (request : Request) (r : Response) (h : cs.matchIn name request = some r) :
    cs.openCache name = cs := by
  obtain ⟨c, hc⟩ := cs.matchIn_some_partition name request r h
  exact cs.openCache_of_partition name c hc


theorem CacheStorage.matchIn_eq_none_of_matchAny (cs : CacheStorage) (name : String)
    (request : Request) (h : cs.matchAny request = none) : cs.matchIn name request = none := by
  induction cs with
  | nil => simp [CacheStorage.matchIn, CacheStorage.partition]
  | cons e rest ih =>
    obtain ⟨k, v⟩ := e
    simp only [CacheStorage.matchAny, List.findSome?_cons] at h ih
    cases hv : Cache.matchReq v request with
    | some r => simp [hv] at h
    | none =>
      simp only [hv] at h
      have ih2 := ih h
      simp only [CacheStorage.matchIn, CacheStorage.partition, lookup_cons_ite] at ih2 ⊢
      by_cases hn : name = k
      · simp [hn, hv]
      · simpa [hn] using ih2

/-! ## WebPages worker: behaviour of each handler by case -/

namespace WebPages

theorem handlePdfRequest_hit (net : Network) (cs : CacheStorage) (request : Request)
    (S : Response) (h : cs.matchIn PDF_CACHE request = some S) :
    handlePdfRequest net cs request
      = { result := Settled.fulfilled (some S), caches := cs, fetches := [] } := by
  have ho := cs.openCache_of_matchIn _ _ _ h
  simp [handlePdfRequest, ho, h]

theorem handleThumbnailRequest_hit (net : Network) (cs : CacheStorage) (request : Request)
    (S : Response) (h : cs.matchIn THUMBNAIL_CACHE request = some S) :
    handleThumbnailRequest net cs request
      = { result := Settled.fulfilled (some S), caches := cs, fetches := [] } := by
  have ho := cs.openCache_of_matchIn _ _ _ h
  simp [handleThumbnailRequest, ho, h]

theorem handleStaticRequest_hit (net : Network) (cs : CacheStorage) (request : Request)
    (S : Response) (h : cs.matchIn CACHE_NAME request = some S) :
    handleStaticRequest net cs request
      = { result := Settled.fulfilled (some S), caches := cs, fetches := [] } := by
  have ho := cs.openCache_of_matchIn _ _ _ h
  simp [handleStaticRequest, ho, h]

theorem handlePdfRequest_miss_ok (net : Network) (cs : CacheStorage) (request : Request)
    (R : Response) (h : cs.matchIn PDF_CACHE request = none) (hnet : net request = some R)
    (hok : R.ok = true) :
    handlePdfRequest net cs request
      = { result := Settled.fulfilled (some R),
          caches := (cs.openCache PDF_CACHE).putIn PDF_CACHE request R,
          fetches := [request] } := by
  simp [handlePdfRequest, cs.matchIn_openCache, h, hnet, hok, Response.clone_eq]

theorem handleThumbnailRequest_miss_ok (net : Network) (cs : CacheStorage)
    (request : Request) (R : Response) (h : cs.matchIn THUMBNAIL_CACHE request = none)
    (hnet : net request = some R) (hok : R.ok = true) :
    handleThumbnailRequest net cs request
      = { result := Settled.fulfilled (some R),
          caches := (cs.openCache THUMBNAIL_CACHE).putIn THUMBNAIL_CACHE request R,
          fetches := [request] } := by
  simp [handleThumbnailRequest, cs.matchIn_openCache, h, hnet, hok, Response.clone_eq]

theorem handleStaticRequest_miss_ok (net : Network) (cs : CacheStorage) (request : Request)
    (R : Response) (h : cs.matchIn CACHE_NAME request = none) (hnet : net request = some R)
    (hok : R.ok = true) :
    handleStaticRequest net cs request
      = { result := Settled.fulfilled (some R),
          caches := (cs.openCache CACHE_NAME).putIn CACHE_NAME request R,
          fetches := [request] } := by
  simp [handleStaticRequest, cs.matchIn_openCache, h, hnet, hok, Response.clone_eq]

theorem matchIn_after_store (cs : CacheStorage) (name : String) (request : Request)
    (R : Response) (ha : Cache.accepts request R = true) :
    ((cs.openCache name).putIn name request R).matchIn name request = some R :=
  (cs.openCache name).matchIn_putIn_self name request R
    (cs.isSome_partition_openCache name) ha

end WebPages

/-! ## WebPages worker: fetch handlers -/

namespace WebPages

/-- C1: when the partition of a cache-first handler (`handlePdfRequest`,
`handleThumbnailRequest`, `handleStaticRequest`) already holds a snapshot for the
request, the handler returns exactly that snapshot, issues no network fetch and
leaves the whole cache storage unchanged. -/
theorem cache_first_hit (net : Network) (cs : CacheStorage) (request : Request)
    (S : Response) :
    (cs.matchIn PDF_CACHE request = some S →
      handlePdfRequest net cs request
        = { result := Settled.fulfilled (some S), caches := cs, fetches := [] }) ∧
    (cs.matchIn THUMBNAIL_CACHE request = some S →
      handleThumbnailRequest net cs request
        = { result := Settled.fulfilled (some S), caches := cs, fetches := [] }) ∧
    (cs.matchIn CACHE_NAME request = some S →
      handleStaticRequest net cs request
        = { result := Settled.fulfilled (some S), caches := cs, fetches := [] }) := by
  refine ⟨fun h => ?_, fun h => ?_, fun h => ?_⟩
  · have ho := cs.openCache_of_matchIn _ _ _ h
    simp [handlePdfRequest, ho, h]
  · have ho := cs.openCache_of_matchIn _ _ _ h
    simp [handleThumbnailRequest, ho, h]
  · have ho := cs.openCache_of_matchIn _ _ _ h
    simp [handleStaticRequest, ho, h]

theorem cache_first_hit_witness :
    (Samples.warmStorage.matchIn PDF_CACHE Samples.pdfRequest = some Samples.snapshot ∧
      handlePdfRequest Samples.online Samples.warmStorage Samples.pdfRequest
        = { result := Settled.fulfilled (some Samples.snapshot),
            caches := Samples.warmStorage, fetches := [] }) ∧
    (Samples.warmStorage.matchIn THUMBNAIL_CACHE Samples.thumbnailRequest
        = some Samples.snapshot ∧
      handleThumbnailRequest Samples.online Samples.warmStorage Samples.thumbnailRequest
        = { result := Settled.fulfilled (some Samples.snapshot),
            caches := Samples.warmStorage, fetches := [] }) ∧
    (Samples.warmStorage.matchIn CACHE_NAME Samples.staticRequest = some Samples.snapshot ∧
      handleStaticRequest Samples.online Samples.warmStorage Samples.staticRequest
        = { result := Settled.fulfilled (some Samples.snapshot),
            caches := Samples.warmStorage, fetches := [] }) :=
  ⟨⟨by decide,
     (cache_first_hit Samples.online Samples.warmStorage Samples.pdfRequest
        Samples.snapshot).1 (by decide)⟩,
   ⟨by decide,
     (cache_first_hit Samples.online Samples.warmStorage Samples.thumbnailRequest
        Samples.snapshot).2.1 (by decide)⟩,
   ⟨by decide,
     (cache_first_hit Samples.online Samples.warmStorage Samples.staticRequest
        Samples.snapshot).2.2 (by decide)⟩⟩

/-- When the network fetch of an API request fulfils with an ok response `R` and
the platform cache accepts the pair (a `GET` request, no 206, no `Vary: *`),
`handleApiRequest` returns `R` and afterwards the API partition maps the request
to `R`, whatever was stored for it before. -/
theorem api_success_returns_and_stores (net : Network) (cs : CacheStorage)
    (request : Request) (R : Response) (hnet : net request = some R) (hok : R.ok = true)
    (hacc : Cache.accepts request R = true) :
    (handleApiRequest net cs request).result = Settled.fulfilled (some R) ∧
    (handleApiRequest net cs request).caches.matchIn API_CACHE request = some R := by
  have hput := (cs.openCache API_CACHE).matchIn_putIn_self API_CACHE request R
    (cs.isSome_partition_openCache API_CACHE) hacc
  simp [handleApiRequest, hnet, hok, Response.clone_eq, hput]

theorem api_success_returns_and_stores_witness :
    Samples.warmStorage.matchIn API_CACHE Samples.apiRequest = some Samples.snapshot ∧
    (handleApiRequest Samples.online Samples.warmStorage Samples.apiRequest).result
      = Settled.fulfilled (some Samples.fresh) ∧
    (handleApiRequest Samples.online Samples.warmStorage Samples.apiRequest).caches.matchIn
      API_CACHE Samples.apiRequest = some Samples.fresh :=
  ⟨by decide,
   api_success_returns_and_stores Samples.online Samples.warmStorage Samples.apiRequest
     Samples.fresh rfl (by decide) (by decide)⟩

/-- C3: when the network fetch of an API request fails with a transport error and
the API partition holds a snapshot `S` for the request, `handleApiRequest`
returns `S` and the API partition still maps the request to `S` (the cache
storage is unchanged). -/
theorem api_failure_serves_stale (net : Network) (cs : CacheStorage) (request : Request)
    (S : Response) (hnet : net request = none)
    (hS : cs.matchIn API_CACHE request = some S) :
    (handleApiRequest net cs request).result = Settled.fulfilled (some S) ∧
    (handleApiRequest net cs request).caches.matchIn API_CACHE request = some S ∧
    (handleApiRequest net cs request).caches = cs := by
  have ho := cs.openCache_of_matchIn _ _ _ hS
  simp [handleApiRequest, hnet, ho, hS]

theorem api_failure_serves_stale_witness :
    (handleApiRequest Samples.offline Samples.warmStorage Samples.apiRequest).result
      = Settled.fulfilled (some Samples.snapshot) ∧
    (handleApiRequest Samples.offline Samples.warmStorage Samples.apiRequest).caches.matchIn
      API_CACHE Samples.apiRequest = some Samples.snapshot ∧
    (handleApiRequest Samples.offline Samples.warmStorage Samples.apiRequest).caches
      = Samples.warmStorage :=
  api_failure_serves_stale Samples.offline Samples.warmStorage Samples.apiRequest
    Samples.snapshot rfl (by decide)

end WebPages


/-! ## Offline responses and the round trip -/

/-- C4, counterexample: with the network down and an empty cache storage, neither
API handler meets the stated contract (status 503 together with the `error` field
`"offline"`): `handleApiRequest` answers with another `error` text and the
educational API branch answers without the status 503. -/
theorem api_offline_contract_fails :
    Samples.offline Samples.apiRequest = none ∧
    CacheStorage.matchAny [] Samples.apiRequest = none ∧
    meetsOfflineContract (WebPages.handleApiRequest Samples.offline [] Samples.apiRequest)
      = false ∧
    (PwaExample.fetchListener Samples.offline [] Samples.apiRequest).map meetsOfflineContract
      = some false := by
  decide

/-- C4, amended: when the network fetch fails and no partition holds a snapshot for
the request, `handleApiRequest` of the WebPages worker returns status 503 with the
JSON body `error: "Offline - data not available"` and a `message`, and the
educational API branch of the pwa-learning-example worker (GET, path starting
with `/api/books` or `/api/categories`) returns the JSON body `error: "offline"`
with a `message`, under the default status 200. -/
theorem api_offline_response (net : Network) (cs : CacheStorage) (request : Request)
    (hnet : net request = none) (hmiss : cs.matchAny request = none) :
    (WebPages.handleApiRequest net cs request).result
      = Settled.fulfilled (some
          { status := 503, headers := [("Content-Type", "application/json")],
            body := Body.json [("error", "Offline - data not available"),
                               ("message", "Connect to internet to sync latest content")] }) ∧
    (request.method = "GET" →
      (startsWith request.pathname "/api/books" ||
        startsWith request.pathname "/api/categories") = true →
      (PwaExample.fetchListener net cs request).map (fun out => out.result)
        = some (Settled.fulfilled (some
          { status := 200, headers := [("Content-Type", "application/json")],
            body := Body.json
              [("error", "offline"),
               ("message", "Educational content temporarily unavailable. Check your internet connection."),
               ("cached_content", "Available in offline mode")] }))) := by
  constructor
  · have hm := cs.matchIn_eq_none_of_matchAny WebPages.API_CACHE request hmiss
    simp [WebPages.handleApiRequest, hnet, cs.matchIn_openCache, hm, Response.new]
  · intro hget hpath
    simp only [Bool.or_eq_true] at hpath
    simp [PwaExample.fetchListener, hget, hpath, PwaExample.educationalApiBranch, hmiss,
      PwaExample.fetchAndStore, hnet, Response.new, defaultStatus]

theorem api_offline_response_witness :
    (WebPages.handleApiRequest Samples.offline [] Samples.apiRequest).result
      = Settled.fulfilled (some
          { status := 503, headers := [("Content-Type", "application/json")],
            body := Body.json [("error", "Offline - data not available"),
                               ("message", "Connect to internet to sync latest content")] }) ∧
    (PwaExample.fetchListener Samples.offline [] Samples.apiRequest).map
        (fun out => out.result)
        = some (Settled.fulfilled (some
          { status := 200, headers := [("Content-Type", "application/json")],
            body := Body.json
              [("error", "offline"),
               ("message", "Educational content temporarily unavailable. Check your internet connection."),
               ("cached_content", "Available in offline mode")] })) :=
  ⟨(api_offline_response Samples.offline [] Samples.apiRequest rfl rfl).1,
   (api_offline_response Samples.offline [] Samples.apiRequest rfl rfl).2 rfl (by decide)⟩

/-- Round trip through a cache-first handler of the WebPages worker, for a pair
the platform cache accepts (a `GET` request, no 206, no `Vary: *`). For a
request with no stored snapshot and an ok network response `S`, the first call
returns `S`, and a second call on the resulting storage returns `S` again (same
status, same body) without any fetch, whatever the network `down` does by then,
so in particular when it fails. -/
theorem cache_first_round_trip (net down : Network) (cs : CacheStorage) (K : Request)
    (S : Response) (hnet : net K = some S) (hok : S.ok = true)
    (hacc : Cache.accepts K S = true) :
    (cs.matchIn WebPages.PDF_CACHE K = none →
      (WebPages.handlePdfRequest net cs K).result = Settled.fulfilled (some S) ∧
      (WebPages.handlePdfRequest down (WebPages.handlePdfRequest net cs K).caches K).result
        = Settled.fulfilled (some S) ∧
      (WebPages.handlePdfRequest down (WebPages.handlePdfRequest net cs K).caches K).fetches
        = []) ∧
    (cs.matchIn WebPages.THUMBNAIL_CACHE K = none →
      (WebPages.handleThumbnailRequest net cs K).result = Settled.fulfilled (some S) ∧
      (WebPages.handleThumbnailRequest down
          (WebPages.handleThumbnailRequest net cs K).caches K).result
        = Settled.fulfilled (some S) ∧
      (WebPages.handleThumbnailRequest down
          (WebPages.handleThumbnailRequest net cs K).caches K).fetches = []) ∧
    (cs.matchIn WebPages.CACHE_NAME K = none →
      (WebPages.handleStaticRequest net cs K).result = Settled.fulfilled (some S) ∧
      (WebPages.handleStaticRequest down
          (WebPages.handleStaticRequest net cs K).caches K).result
        = Settled.fulfilled (some S) ∧
      (WebPages.handleStaticRequest down
          (WebPages.handleStaticRequest net cs K).caches K).fetches = []) := by
  refine ⟨fun h => ?_, fun h => ?_, fun h => ?_⟩
  · rw [WebPages.handlePdfRequest_miss_ok net cs K S h hnet hok]
    simp [WebPages.handlePdfRequest_hit down _ K S (WebPages.matchIn_after_store cs _ K S hacc)]
  · rw [WebPages.handleThumbnailRequest_miss_ok net cs K S h hnet hok]
    simp [WebPages.handleThumbnailRequest_hit down _ K S
      (WebPages.matchIn_after_store cs _ K S hacc)]
  · rw [WebPages.handleStaticRequest_miss_ok net cs K S h hnet hok]
    simp [WebPages.handleStaticRequest_hit down _ K S
      (WebPages.matchIn_after_store cs _ K S hacc)]

theorem cache_first_round_trip_witness :
    (WebPages.handlePdfRequest Samples.offline
        (WebPages.handlePdfRequest Samples.online [] Samples.pdfRequest).caches
        Samples.pdfRequest).result = Settled.fulfilled (some Samples.fresh) ∧
    (WebPages.handleThumbnailRequest Samples.offline
        (WebPages.handleThumbnailRequest Samples.online [] Samples.thumbnailRequest).caches
        Samples.thumbnailRequest).result = Settled.fulfilled (some Samples.fresh) ∧
    (WebPages.handleStaticRequest Samples.offline
        (WebPages.handleStaticRequest Samples.online [] Samples.staticRequest).caches
        Samples.staticRequest).result = Settled.fulfilled (some Samples.fresh) :=
  ⟨((cache_first_round_trip Samples.online Samples.offline [] Samples.pdfRequest
      Samples.fresh rfl (by decide) (by decide)).1 (by decide)).2.1,
   ((cache_first_round_trip Samples.online Samples.offline [] Samples.thumbnailRequest
      Samples.fresh rfl (by decide) (by decide)).2.1 (by decide)).2.1,
   ((cache_first_round_trip Samples.online Samples.offline [] Samples.staticRequest
      Samples.fresh rfl (by decide) (by decide)).2.2 (by decide)).2.1⟩


/-- C9: in the WebPages worker, a cache-first request with no stored snapshot whose
fetch fails with a transport error is answered with a typed unavailable response:
`handlePdfRequest` fulfils with status 503 and a `text/plain` body,
`handleThumbnailRequest` with status 404, and `handleStaticRequest` with status
404 when the request is not a navigation. The promise is fulfilled, never
rejected. -/
theorem cache_first_miss_offline (net : Network) (cs : CacheStorage) (request : Request)
    (hnet : net request = none) :
    (cs.matchIn WebPages.PDF_CACHE request = none →
      (WebPages.handlePdfRequest net cs request).result
        = Settled.fulfilled (some
            { status := 503, headers := [("Content-Type", "text/plain")],
              body := Body.text "PDF unavailable offline" })) ∧
    (cs.matchIn WebPages.THUMBNAIL_CACHE request = none →
      (WebPages.handleThumbnailRequest net cs request).result
        = Settled.fulfilled (some
            { status := 404, headers := [], body := Body.text "Thumbnail unavailable" })) ∧
    (cs.matchIn WebPages.CACHE_NAME request = none → request.mode ≠ "navigate" →
      (WebPages.handleStaticRequest net cs request).result
        = Settled.fulfilled (some
            { status := 404, headers := [],
              body := Body.text "Resource unavailable offline" })) := by
  refine ⟨fun h => ?_, fun h => ?_, fun h hmode => ?_⟩
  · simp [WebPages.handlePdfRequest, cs.matchIn_openCache, h, hnet, Response.new]
  · simp [WebPages.handleThumbnailRequest, cs.matchIn_openCache, h, hnet, Response.new]
  · simp [WebPages.handleStaticRequest, cs.matchIn_openCache, h, hnet, hmode, Response.new]

theorem cache_first_miss_offline_witness :
    (WebPages.handlePdfRequest Samples.offline [] Samples.pdfRequest).result
        = Settled.fulfilled (some
            { status := 503, headers := [("Content-Type", "text/plain")],
              body := Body.text "PDF unavailable offline" }) ∧
    (WebPages.handleThumbnailRequest Samples.offline [] Samples.thumbnailRequest).result
        = Settled.fulfilled (some
            { status := 404, headers := [], body := Body.text "Thumbnail unavailable" }) ∧
    (WebPages.handleStaticRequest Samples.offline [] Samples.staticRequest).result
        = Settled.fulfilled (some
            { status := 404, headers := [],
              body := Body.text "Resource unavailable offline" }) :=
  ⟨(cache_first_miss_offline Samples.offline [] Samples.pdfRequest rfl).1 rfl,
   (cache_first_miss_offline Samples.offline [] Samples.thumbnailRequest rfl).2.1 rfl,
   (cache_first_miss_offline Samples.offline [] Samples.staticRequest rfl).2.2 rfl
     (by decide)⟩

/-- C10, the code at the failing input: a navigation request with the network down
and an empty cache storage (no snapshot for the request, none for `/`).
`handleStaticRequest` of the WebPages worker, which the `fetch` listener selects
for it, fulfils with `undefined`: the left operand of
`caches.match('/') || new Response('Offline')` is a promise, hence truthy, so the
synthesized response is never taken. The HTML branch of the pwa-learning-example
worker, on the same input, fulfils with its synthesized offline document. -/
theorem navigation_total_miss :
    Samples.pageRequest.mode = "navigate" ∧
    Samples.offline Samples.pageRequest = none ∧
    CacheStorage.matchAny [] Samples.pageRequest = none ∧
    CacheStorage.matchAny [] (Request.ofUrl "/" "") = none ∧
    WebPages.route Samples.pageRequest.pathname = WebPages.Handler.static ∧
    (WebPages.handleStaticRequest Samples.offline [] Samples.pageRequest).result
      = Settled.fulfilled none ∧
    (WebPages.fetchListener Samples.offline [] Samples.pageRequest).result
      = Settled.fulfilled none ∧
    (PwaExample.fetchListener Samples.offline [] Samples.pageRequest).map
        (fun out => out.result)
      = some (Settled.fulfilled (some
          { status := 200, headers := [("Content-Type", "text/html")],
            body := Body.text PwaExample.offlineDocument })) :=
  ⟨rfl, rfl, rfl, rfl, by decide, by decide, by decide, rfl⟩


/-! ## Routing of the WebPages `fetch` listener -/

theorem startsWith_trans (s p q : String) (hpq : startsWith p q = true)
    (hsp : startsWith s p = true) : startsWith s q = true := by
  simp only [startsWith, List.isPrefixOf_iff_prefix] at *
  exact hpq.trans hsp

/-- C8: the `fetch` listener of the WebPages worker sends every path to exactly one
handler, the more specific patterns first. A path that starts with `/api/books/`
and ends with `/pdf` goes to `handlePdfRequest`; any other path that starts with
`/api/thumbnails/` goes to `handleThumbnailRequest`; both kinds also start with
`/api/`, yet `handleApiRequest` receives only the `/api/` paths of neither kind,
and receives all of those; every path outside `/api/` goes to
`handleStaticRequest`. -/
theorem route_priority (pathname : String) :
    (startsWith pathname "/api/books/" = true ∧ endsWith pathname "/pdf" = true →
      WebPages.route pathname = WebPages.Handler.pdf) ∧
    (¬ (startsWith pathname "/api/books/" = true ∧ endsWith pathname "/pdf" = true) →
      startsWith pathname "/api/thumbnails/" = true →
      WebPages.route pathname = WebPages.Handler.thumbnail) ∧
    (startsWith pathname "/api/books/" = true → startsWith pathname "/api/" = true) ∧
    (startsWith pathname "/api/thumbnails/" = true → startsWith pathname "/api/" = true) ∧
    (WebPages.route pathname = WebPages.Handler.api ↔
      (startsWith pathname "/api/" = true ∧
        ¬ (startsWith pathname "/api/books/" = true ∧ endsWith pathname "/pdf" = true) ∧
        startsWith pathname "/api/thumbnails/" = false)) ∧
    (startsWith pathname "/api/" = false →
      WebPages.route pathname = WebPages.Handler.static) := by
  have hb : startsWith pathname "/api/books/" = true → startsWith pathname "/api/" = true :=
    startsWith_trans pathname "/api/books/" "/api/" (by decide)
  have ht : startsWith pathname "/api/thumbnails/" = true →
      startsWith pathname "/api/" = true :=
    startsWith_trans pathname "/api/thumbnails/" "/api/" (by decide)
  refine ⟨?_, ?_, hb, ht, ?_, ?_⟩
  · rintro ⟨h1, h2⟩
    simp [WebPages.route, h1, h2]
  · intro hn h
    have hn2 : (startsWith pathname "/api/books/" && endsWith pathname "/pdf") = false := by
      simpa using hn
    simp [WebPages.route, hn2, h]
  · unfold WebPages.route
    cases h1 : startsWith pathname "/api/books/" <;>
      cases h2 : endsWith pathname "/pdf" <;>
      cases h3 : startsWith pathname "/api/thumbnails/" <;>
      cases h4 : startsWith pathname "/api/" <;> simp
  · intro h
    have h1 : startsWith pathname "/api/books/" = false := by
      cases hh : startsWith pathname "/api/books/" with
      | false => rfl
      | true => rw [hb hh] at h; exact absurd h (by decide)
    have h3 : startsWith pathname "/api/thumbnails/" = false := by
      cases hh : startsWith pathname "/api/thumbnails/" with
      | false => rfl
      | true => rw [ht hh] at h; exact absurd h (by decide)
    simp [WebPages.route, h1, h3, h]

theorem route_priority_witness :
    WebPages.route "/api/books/7/pdf" = WebPages.Handler.pdf ∧
    WebPages.route "/api/thumbnails/7" = WebPages.Handler.thumbnail ∧
    startsWith "/api/books/7/pdf" "/api/" = true ∧
    startsWith "/api/thumbnails/7" "/api/" = true ∧
    WebPages.route "/api/categories" = WebPages.Handler.api ∧
    WebPages.route "/pdf-reader.html" = WebPages.Handler.static :=
  ⟨(route_priority "/api/books/7/pdf").1 (by decide),
   (route_priority "/api/thumbnails/7").2.1 (by decide) (by decide),
   (route_priority "/api/books/7/pdf").2.2.1 (by decide),
   (route_priority "/api/thumbnails/7").2.2.2.1 (by decide),
   (route_priority "/api/categories").2.2.2.2.1.2 (by decide),
   (route_priority "/pdf-reader.html").2.2.2.2.2 (by decide)⟩


/-! ## Lifecycle: activation -/

theorem foldl_delete_eq_filter (P : String → Prop) [DecidablePred P] (ns : List String)
    (acc : CacheStorage) :
    ns.foldl (fun acc n => if P n then acc.delete n else acc) acc
      = acc.filter (fun e => !(decide (P e.1) && decide (e.1 ∈ ns))) := by
  induction ns generalizing acc with
  | nil => simp
  | cons n ns ih =>
    rw [List.foldl_cons, ih]
    by_cases hP : P n
    · simp only [hP, if_true, CacheStorage.delete, List.filter_filter]
      apply List.filter_congr
      intro e _
      by_cases he : e.1 = n
      · simp [he, hP]
      · simp [he]
    · simp only [hP, if_false]
      apply List.filter_congr
      intro e _
      by_cases he : e.1 = n
      · simp [he, hP]
      · simp [he]

theorem partition_filter_name (q : String → Bool) (cs : CacheStorage) (n : String) :
    CacheStorage.partition (cs.filter (fun e => q e.1)) n
      = if q n = true then cs.partition n else none := by
  induction cs with
  | nil => simp [CacheStorage.partition]
  | cons e rest ih =>
    obtain ⟨k, v⟩ := e
    simp only [CacheStorage.partition] at ih ⊢
    by_cases hq : q k = true
    · rw [List.filter_cons_of_pos (by simpa using hq)]
      simp only [lookup_cons_ite, ih]
      by_cases hn : n = k
      · subst hn; simp [hq]
      · simp [hn]
    · rw [List.filter_cons_of_neg (by simpa using hq)]
      simp only [lookup_cons_ite, ih]
      by_cases hn : n = k
      · subst hn; simp [hq]
      · simp [hn]

/-- The purge loop shared by both `activate` listeners: afterwards a partition is
absent when its name satisfies the deletion test, and untouched otherwise. -/
theorem partition_purge (P : String → Prop) [DecidablePred P] (cs : CacheStorage)
    (n : String) :
    CacheStorage.partition
        (cs.keys.foldl (fun acc m => if P m then acc.delete m else acc) cs) n
      = if P n then none else cs.partition n := by
  rw [foldl_delete_eq_filter P cs.keys cs]
  have hcongr : cs.filter (fun e => !(decide (P e.1) && decide (e.1 ∈ cs.keys)))
      = cs.filter (fun e => (fun m => !decide (P m)) e.1) := by
    apply List.filter_congr
    intro e he
    have hk : e.1 ∈ cs.keys := List.mem_map_of_mem (fun e => e.1) he
    simp [hk]
  rw [hcongr, partition_filter_name (fun m => !decide (P m)) cs n]
  by_cases hP : P n <;> simp [hP]


theorem webPages_partition_activateWith (a b c : String) (cs : CacheStorage) (n : String) :
    (WebPages.activateWith a b c cs).partition n
      = if n ≠ a ∧ n ≠ b ∧ n ≠ c then none else cs.partition n :=
  partition_purge (fun m => m ≠ a ∧ m ≠ b ∧ m ≠ c) cs n

theorem pwaExample_partition_activateWith (a b : String) (cs : CacheStorage) (n : String) :
    (PwaExample.activateWith a b cs).partition n
      = if n ≠ a ∧ n ≠ b then none else cs.partition n :=
  partition_purge (fun m => m ≠ a ∧ m ≠ b) cs n

/-! ## Lifecycle: installation -/

theorem isSome_partition_putIn (cs : CacheStorage) (name n : String) (request : Request)
    (r : Response) :
    ((cs.putIn name request r).partition n).isSome = (cs.partition n).isSome := by
  rw [cs.partition_putIn name n request r]
  by_cases hn : n = name
  · subst hn; cases cs.partition n <;> simp
  · simp [hn]

theorem isSome_partition_addAllIn (net : Network) (name n : String) (urls : List String)
    (cs cs2 : CacheStorage) (h : cs.addAllIn net name urls = some cs2) :
    (cs2.partition n).isSome = (cs.partition n).isSome := by
  have hfold : ∀ (us : List String) (acc : CacheStorage),
      ((us.foldl (fun acc u => match net (Request.ofUrl u "") with
                                | some r => acc.putIn name (Request.ofUrl u "") r
                                | none => acc) acc).partition n).isSome
        = (acc.partition n).isSome := by
    intro us
    induction us with
    | nil => intro acc; rfl
    | cons u us ih =>
      intro acc
      rw [List.foldl_cons, ih]
      cases net (Request.ofUrl u "") with
      | none => rfl
      | some r => exact isSome_partition_putIn acc name n _ r
  unfold CacheStorage.addAllIn at h
  split at h
  · cases h; exact hfold urls cs
  · cases h

theorem isSome_partition_addAllIn_getD (net : Network) (name n : String)
    (urls : List String) (cs : CacheStorage) :
    (((cs.addAllIn net name urls).getD cs).partition n).isSome = (cs.partition n).isSome := by
  cases h : cs.addAllIn net name urls with
  | none => rfl
  | some cs2 => exact isSome_partition_addAllIn net name n urls cs cs2 h

theorem addAllIn_eq_none (net : Network) (cs : CacheStorage) (name : String)
    (urls : List String) (u : String) (hu : u ∈ urls) (hf : prewarmFails net u = true) :
    cs.addAllIn net name urls = none := by
  unfold CacheStorage.addAllIn
  rw [if_neg]
  intro hall
  have hu2 := (List.all_eq_true.1 hall) u hu
  unfold prewarmFails at hf
  cases hnet : net (Request.ofUrl u "") with
  | none => simp [hnet] at hu2
  | some r => simp [hnet] at hu2 hf; simp [hu2] at hf

theorem webPages_isSome_partition_installWith (name : String) (net : Network)
    (cs : CacheStorage) :
    ((WebPages.installWith name net cs).caches.partition name).isSome = true := by
  have hcaches : (WebPages.installWith name net cs).caches
      = Option.getD ((cs.openCache name).addAllIn net name WebPages.CORE_FILES)
          (cs.openCache name) := by
    simp only [WebPages.installWith]
    cases (cs.openCache name).addAllIn net name WebPages.CORE_FILES <;> rfl
  rw [hcaches, isSome_partition_addAllIn_getD]
  exact cs.isSome_partition_openCache name

theorem pwaExample_isSome_partition_installWith (a b n : String) (net : Network)
    (cs : CacheStorage) (hn : n = a ∨ n = b) :
    ((PwaExample.installWith a b net cs).caches.partition n).isSome = true := by
  have hopen : (((cs.openCache a).openCache b).partition n).isSome = true := by
    rw [(cs.openCache a).partition_openCache b n]
    by_cases hb : n = b
    · simp [hb]
    · have ha : n = a := by rcases hn with h | h; exact h; exact absurd h hb
      subst ha
      simpa [hb] using cs.isSome_partition_openCache n
  have hcaches : (PwaExample.installWith a b net cs).caches
      = Option.getD
          (CacheStorage.addAllIn net
            (Option.getD
              (((cs.openCache a).openCache b).addAllIn net a PwaExample.CORE_CACHE_FILES)
              ((cs.openCache a).openCache b))
            b PwaExample.EDUCATIONAL_CACHE_FILES)
          (Option.getD
            (((cs.openCache a).openCache b).addAllIn net a PwaExample.CORE_CACHE_FILES)
            ((cs.openCache a).openCache b)) := by
    simp only [PwaExample.installWith]
    split <;> rfl
  rw [hcaches, isSome_partition_addAllIn_getD, isSome_partition_addAllIn_getD, hopen]


/-- C6: after an `activate` listener completes, every partition whose name is not one
of the names the listener expects is gone, and every partition with an expected
name is exactly as before (WebPages: `CACHE_NAME`, `API_CACHE`, `THUMBNAIL_CACHE`;
pwa-learning-example: `CACHE_NAME`, `EDUCATIONAL_MISSION_CACHE`). In particular,
for the same listeners under the next version tag (`v2` after `v1`, `v2.0.0` after
`v1.0.0`): no partition whose name ends in the old tag remains, and every
partition created by the install step of the new version is present and
unchanged after activation. -/
theorem activate_purges_superseded (cs : CacheStorage) (n : String) (net : Network) :
    ((n ≠ WebPages.CACHE_NAME ∧ n ≠ WebPages.API_CACHE ∧ n ≠ WebPages.THUMBNAIL_CACHE) →
      (WebPages.activate cs).partition n = none) ∧
    ((n = WebPages.CACHE_NAME ∨ n = WebPages.API_CACHE ∨ n = WebPages.THUMBNAIL_CACHE) →
      (WebPages.activate cs).partition n = cs.partition n) ∧
    ((n ≠ PwaExample.CACHE_NAME ∧ n ≠ PwaExample.EDUCATIONAL_MISSION_CACHE) →
      (PwaExample.activate cs).partition n = none) ∧
    ((n = PwaExample.CACHE_NAME ∨ n = PwaExample.EDUCATIONAL_MISSION_CACHE) →
      (PwaExample.activate cs).partition n = cs.partition n) ∧
    (endsWith n "v1" = true →
      (PwaExample.activateWith "andylibrary-v2" "educational-content-v2" cs).partition n
        = none) ∧
    ((n = "andylibrary-v2" ∨ n = "educational-content-v2") →
      (((PwaExample.installWith "andylibrary-v2" "educational-content-v2" net
          cs).caches.partition n).isSome = true ∧
       (PwaExample.activateWith "andylibrary-v2" "educational-content-v2"
          (PwaExample.installWith "andylibrary-v2" "educational-content-v2" net
            cs).caches).partition n
         = (PwaExample.installWith "andylibrary-v2" "educational-content-v2" net
            cs).caches.partition n)) ∧
    (endsWith n "v1.0.0" = true →
      (WebPages.activateWith "andylibrary-v2.0.0" "andylibrary-api-v2.0.0"
          "andylibrary-thumbnails-v2.0.0" cs).partition n = none) ∧
    (n = "andylibrary-v2.0.0" →
      (((WebPages.installWith "andylibrary-v2.0.0" net cs).caches.partition n).isSome = true ∧
       (WebPages.activateWith "andylibrary-v2.0.0" "andylibrary-api-v2.0.0"
          "andylibrary-thumbnails-v2.0.0"
          (WebPages.installWith "andylibrary-v2.0.0" net cs).caches).partition n
         = (WebPages.installWith "andylibrary-v2.0.0" net cs).caches.partition n)) := by
  refine ⟨?_, ?_, ?_, ?_, ?_, ?_, ?_, ?_⟩
  · intro h
    rw [WebPages.activate, webPages_partition_activateWith, if_pos h]
  · intro h
    rw [WebPages.activate, webPages_partition_activateWith, if_neg]
    rcases h with h | h | h <;> simp [h]
  · intro h
    rw [PwaExample.activate, pwaExample_partition_activateWith, if_pos h]
  · intro h
    rw [PwaExample.activate, pwaExample_partition_activateWith, if_neg]
    rcases h with h | h <;> simp [h]
  · intro h
    rw [pwaExample_partition_activateWith, if_pos]
    constructor
    · intro hn; subst hn; revert h; decide
    · intro hn; subst hn; revert h; decide
  · intro h
    refine ⟨pwaExample_isSome_partition_installWith _ _ n net cs h, ?_⟩
    rw [pwaExample_partition_activateWith, if_neg]
    rcases h with h | h <;> simp [h]
  · intro h
    rw [webPages_partition_activateWith, if_pos]
    refine ⟨?_, ?_, ?_⟩
    · intro hn; subst hn; revert h; decide
    · intro hn; subst hn; revert h; decide
    · intro hn; subst hn; revert h; decide
  · intro h
    subst h
    refine ⟨webPages_isSome_partition_installWith _ net cs, ?_⟩
    rw [webPages_partition_activateWith, if_neg]
    simp

theorem activate_purges_superseded_witness :
    (WebPages.activate Samples.mixedStorage).partition "other-app-cache" = none ∧
    (WebPages.activate Samples.mixedStorage).partition WebPages.CACHE_NAME
      = some [(Samples.staticRequest, Samples.snapshot)] ∧
    (PwaExample.activate Samples.mixedStorage).partition "andylibrary-v2" = none ∧
    (PwaExample.activate Samples.mixedStorage).partition PwaExample.CACHE_NAME
      = some [(Samples.pageRequest, Samples.snapshot)] ∧
    (PwaExample.activateWith "andylibrary-v2" "educational-content-v2"
        Samples.mixedStorage).partition "andylibrary-v1" = none ∧
    (PwaExample.activateWith "andylibrary-v2" "educational-content-v2"
        (PwaExample.installWith "andylibrary-v2" "educational-content-v2" Samples.online
          Samples.mixedStorage).caches).partition "educational-content-v2"
      = (PwaExample.installWith "andylibrary-v2" "educational-content-v2" Samples.online
          Samples.mixedStorage).caches.partition "educational-content-v2" ∧
    (WebPages.activateWith "andylibrary-v2.0.0" "andylibrary-api-v2.0.0"
        "andylibrary-thumbnails-v2.0.0" Samples.mixedStorage).partition
        "andylibrary-pdfs-v1.0.0" = none ∧
    ((WebPages.installWith "andylibrary-v2.0.0" Samples.offline
        Samples.mixedStorage).caches.partition "andylibrary-v2.0.0").isSome = true :=
  ⟨(activate_purges_superseded Samples.mixedStorage "other-app-cache" Samples.online).1
      (by decide),
   ((activate_purges_superseded Samples.mixedStorage WebPages.CACHE_NAME
      Samples.online).2.1 (Or.inl rfl)).trans (by decide),
   (activate_purges_superseded Samples.mixedStorage "andylibrary-v2"
      Samples.online).2.2.1 (by decide),
   ((activate_purges_superseded Samples.mixedStorage PwaExample.CACHE_NAME
      Samples.online).2.2.2.1 (Or.inl rfl)).trans (by decide),
   (activate_purges_superseded Samples.mixedStorage "andylibrary-v1"
      Samples.online).2.2.2.2.1 (by decide),
   ((activate_purges_superseded Samples.mixedStorage "educational-content-v2"
      Samples.online).2.2.2.2.2.1 (Or.inr rfl)).2,
   (activate_purges_superseded Samples.mixedStorage "andylibrary-pdfs-v1.0.0"
      Samples.online).2.2.2.2.2.2.1 (by decide),
   ((activate_purges_superseded Samples.mixedStorage "andylibrary-v2.0.0"
      Samples.offline).2.2.2.2.2.2.2 rfl).1⟩

/-- C7, counterexample: with every fetch failing, pre-warming of the core entry `/`
fails, yet the promise the WebPages `install` listener hands to
`event.waitUntil` does not reject. -/
theorem webpages_install_swallows_failure :
    "/" ∈ WebPages.CORE_FILES ∧
    prewarmFails Samples.offline "/" = true ∧
    (WebPages.install Samples.offline []).rejected = false := by
  decide

/-- C7, amended: when pre-warming fails for any one configured entry, the `install`
listener of the pwa-learning-example worker rejects and does not call
`skipWaiting`; the `install` listener of the WebPages worker catches the failure,
so its promise fulfils, without calling `skipWaiting` and with nothing stored
(the storage is the one before the call with `CACHE_NAME` opened). -/
theorem install_prewarm_failure (net : Network) (cs : CacheStorage) (u : String)
    (hfail : prewarmFails net u = true) :
    (u ∈ PwaExample.CORE_CACHE_FILES ∨ u ∈ PwaExample.EDUCATIONAL_CACHE_FILES →
      (PwaExample.install net cs).rejected = true ∧
      (PwaExample.install net cs).skipWaiting = false) ∧
    (u ∈ WebPages.CORE_FILES →
      (WebPages.install net cs).rejected = false ∧
      (WebPages.install net cs).skipWaiting = false ∧
      (WebPages.install net cs).caches = cs.openCache WebPages.CACHE_NAME) := by
  constructor
  · intro hu
    simp only [PwaExample.install, PwaExample.installWith]
    rcases hu with hu | hu
    · rw [addAllIn_eq_none net _ PwaExample.CACHE_NAME _ u hu hfail]
      simp
    · rw [addAllIn_eq_none net _ PwaExample.EDUCATIONAL_MISSION_CACHE
        PwaExample.EDUCATIONAL_CACHE_FILES u hu hfail]
      simp
  · intro hu
    simp only [WebPages.install, WebPages.installWith]
    rw [addAllIn_eq_none net _ WebPages.CACHE_NAME _ u hu hfail]
    simp

theorem install_prewarm_failure_witness :
    ((PwaExample.install Samples.flaky []).rejected = true ∧
      (PwaExample.install Samples.flaky []).skipWaiting = false) ∧
    ((WebPages.install Samples.flaky []).rejected = false ∧
      (WebPages.install Samples.flaky []).skipWaiting = false ∧
      (WebPages.install Samples.flaky []).caches
        = CacheStorage.openCache [] WebPages.CACHE_NAME) :=
  ⟨(install_prewarm_failure Samples.flaky [] "/api/categories" (by decide)).1
      (Or.inr (by decide)),
   (install_prewarm_failure Samples.flaky [] "/manifest.json" (by decide)).2 (by decide)⟩


/-! ## Frame lemmas: what a write leaves alone -/

theorem sameKey_of_both (e a b : Request) (ha : sameKey e a = true)
    (hb : sameKey e b = true) : sameKey a b = true := by
  simp only [sameKey, Bool.and_eq_true, decide_eq_true_eq] at *
  obtain ⟨⟨h1, h2⟩, h3⟩ := ha
  obtain ⟨⟨h4, h5⟩, h6⟩ := hb
  exact ⟨⟨h1.symm.trans h4, h2.symm.trans h5⟩, h3.symm.trans h6⟩

theorem Cache.matchReq_put_other (c : Cache) (request other : Request) (r : Response)
    (h : sameKey other request = false) :
    (Cache.put c request r).matchReq other = c.matchReq other := by
  have hlast : sameKey request other = false := by
    cases hh : sameKey request other with
    | false => rfl
    | true =>
      have := sameKey_of_both request other request hh (sameKey_self request)
      rw [this] at h; exact absurd h (by decide)
  have hfilter : (c.filter (fun e => !sameKey e.1 request)).find?
      (fun e => sameKey e.1 other) = c.find? (fun e => sameKey e.1 other) := by
    induction c with
    | nil => rfl
    | cons e rest ih =>
      by_cases he : sameKey e.1 other = true
      · have hne : sameKey e.1 request = false := by
          cases hh : sameKey e.1 request with
          | false => rfl
          | true =>
            have := sameKey_of_both e.1 other request he hh
            rw [this] at h; exact absurd h (by decide)
        rw [List.filter_cons_of_pos (by simp [hne])]
        simp [List.find?_cons, he]
      · have he2 : sameKey e.1 other = false := by simpa using he
        by_cases hr : sameKey e.1 request = true
        · rw [List.filter_cons_of_neg (by simp [hr])]
          simp only [List.find?_cons, he2]
          exact ih
        · have hr2 : sameKey e.1 request = false := by simpa using hr
          rw [List.filter_cons_of_pos (by simp [hr2])]
          simp only [List.find?_cons, he2]
          exact ih
  by_cases ha : Cache.accepts request r = true
  · simp only [Cache.put, ha, if_true, Cache.matchReq, List.find?_append, hfilter]
    cases c.find? (fun e => sameKey e.1 other) with
    | some x => simp
    | none => simp [List.find?_cons, hlast]
  · simp [Cache.put, ha]

theorem CacheStorage.matchIn_putIn_other (cs : CacheStorage) (name n : String)
    (request other : Request) (r : Response) (h : sameKey other request = false) :
    (cs.putIn name request r).matchIn n other = cs.matchIn n other := by
  simp only [CacheStorage.matchIn, cs.partition_putIn name n request r]
  by_cases hn : n = name
  · subst hn
    cases cs.partition n with
    | none => simp
    | some c => simp [Cache.matchReq_put_other c request other r h]
  · simp [hn]

theorem CacheStorage.partition_openCache_other (cs : CacheStorage) (name n : String)
    (hn : n ≠ name) : (cs.openCache name).partition n = cs.partition n := by
  simp [cs.partition_openCache name n, hn]

theorem CacheStorage.partition_putIn_other (cs : CacheStorage) (name n : String)
    (request : Request) (r : Response) (hn : n ≠ name) :
    (cs.putIn name request r).partition n = cs.partition n := by
  simp [cs.partition_putIn name n request r, hn]

theorem CacheStorage.partition_store (cs : CacheStorage) (name : String) (request : Request)
    (r : Response) :
    ((cs.openCache name).putIn name request r).partition name
      = some (Cache.put ((cs.partition name).getD []) request r) := by
  simp [(cs.openCache name).partition_putIn name name request r,
    cs.partition_openCache name name]

theorem Cache.mem_put (c : Cache) (request : Request) (r : Response)
    (ha : Cache.accepts request r = true) :
    (request, r) ∈ Cache.put c request r := by
  simp [Cache.put, ha]

theorem CacheStorage.getD_partition_openCache (cs : CacheStorage) (name n : String) :
    ((cs.openCache name).partition n).getD [] = (cs.partition n).getD [] := by
  rw [cs.partition_openCache name n]
  by_cases hn : n = name
  · subst hn; simp
  · simp [hn]


/-! ## pwa-learning-example worker: settlement of the `fetch` listener -/

/-- C11, the code at the failing input: in the pwa-learning-example worker the
educational API branch and the HTML page branch fulfil with a response for every
cache state and every network outcome, but the static file branch has no
`catch`: for a GET request to a static file with the network down and nothing
cached, the promise handed to `respondWith` rejects with the transport error. -/
theorem pwa_static_branch_rejects (net : Network) (cs : CacheStorage) (request : Request) :
    (∃ r, (PwaExample.educationalApiBranch net cs request).result
        = Settled.fulfilled (some r)) ∧
    (∃ r, (PwaExample.htmlBranch net cs request).result = Settled.fulfilled (some r)) ∧
    Samples.staticRequest.method = "GET" ∧
    Samples.offline Samples.staticRequest = none ∧
    (PwaExample.fetchListener Samples.offline [] Samples.staticRequest).map
        (fun out => out.result) = some Settled.rejected := by
  refine ⟨?_, ?_, rfl, rfl, by decide⟩
  · unfold PwaExample.educationalApiBranch PwaExample.fetchAndStore
    cases cs.matchAny request with
    | some r => exact ⟨r, rfl⟩
    | none =>
      cases net request with
      | none => exact ⟨_, rfl⟩
      | some r =>
        by_cases hok : r.ok = true
        · exact ⟨r, by simp [hok]⟩
        · exact ⟨r, by simp [hok]⟩
  · unfold PwaExample.htmlBranch PwaExample.fetchAndStore
    cases hnet : net request with
    | some r =>
      by_cases hok : r.ok = true
      · exact ⟨r, by simp [hok]⟩
      · exact ⟨r, by simp [hok]⟩
    | none =>
      simp only []
      cases cs.matchAny request with
      | some r => exact ⟨r, rfl⟩
      | none =>
        cases cs.matchAny (Request.ofUrl "/" "") with
        | some r => exact ⟨r, rfl⟩
        | none => exact ⟨_, rfl⟩

/-! ## Credentials in persisted entries -/

/-- C12, counterexample: an API request carrying an `Authorization` header is
fetched with that header, and the entry `handleApiRequest` writes into the API
partition is the request as received, header included. -/
theorem authorization_persisted :
    Samples.authorizedRequest.headers.lookup "Authorization" = some "Bearer secret-token" ∧
    (WebPages.handleApiRequest Samples.online [] Samples.authorizedRequest).fetches
      = [Samples.authorizedRequest] ∧
    (WebPages.handleApiRequest Samples.online [] Samples.authorizedRequest).caches.partition
        WebPages.API_CACHE = some [(Samples.authorizedRequest, Samples.fresh)] ∧
    List.any [(Samples.authorizedRequest, Samples.fresh)] entryHasAuthorization = true := by
  decide

/-- C12, amended: when a handler of the WebPages worker fetches a request carrying
an `Authorization` header and persists the ok response `R` (the platform cache
accepting the pair), the credential is passed to the network fetch and the entry
written into the handler's partition is the pair of the request as received and
`R`: the stored request descriptor still carries the `Authorization` value,
nothing is stripped. -/
theorem persisted_entry_keeps_request (h : WebPages.Handler) (net : Network)
    (cs : CacheStorage) (request : Request) (R : Response) (token : String)
    (hauth : request.headers.lookup "Authorization" = some token)
    (hnet : net request = some R) (hok : R.ok = true)
    (hfetch : (h.run net cs request).fetches = [request])
    (hacc : Cache.accepts request R = true) :
    ∃ c, (h.run net cs request).caches.partition h.cacheName = some c ∧
      (request, R) ∈ c ∧ c.any entryHasAuthorization = true := by
  have hany : ∀ c : Cache, (request, R) ∈ c → c.any entryHasAuthorization = true := by
    intro c hc
    rw [List.any_eq_true]
    exact ⟨(request, R), hc, by simp [entryHasAuthorization, hauth]⟩
  have hstore : ∀ name : String,
      ∃ c, ((cs.openCache name).putIn name request R).partition name = some c ∧
        (request, R) ∈ c ∧ c.any entryHasAuthorization = true := fun name =>
    ⟨_, cs.partition_store name request R, Cache.mem_put _ request R hacc,
      hany _ (Cache.mem_put _ request R hacc)⟩
  cases h with
  | pdf =>
    simp only [WebPages.Handler.run, WebPages.Handler.cacheName] at hfetch ⊢
    cases hm : cs.matchIn WebPages.PDF_CACHE request with
    | some S =>
      rw [WebPages.handlePdfRequest_hit net cs request S hm] at hfetch
      simp at hfetch
    | none =>
      rw [WebPages.handlePdfRequest_miss_ok net cs request R hm hnet hok]
      exact hstore _
  | thumbnail =>
    simp only [WebPages.Handler.run, WebPages.Handler.cacheName] at hfetch ⊢
    cases hm : cs.matchIn WebPages.THUMBNAIL_CACHE request with
    | some S =>
      rw [WebPages.handleThumbnailRequest_hit net cs request S hm] at hfetch
      simp at hfetch
    | none =>
      rw [WebPages.handleThumbnailRequest_miss_ok net cs request R hm hnet hok]
      exact hstore _
  | api =>
    simp only [WebPages.Handler.run, WebPages.Handler.cacheName,
      WebPages.handleApiRequest, hnet, hok, if_true, Response.clone_eq]
    exact hstore _
  | static =>
    simp only [WebPages.Handler.run, WebPages.Handler.cacheName] at hfetch ⊢
    cases hm : cs.matchIn WebPages.CACHE_NAME request with
    | some S =>
      rw [WebPages.handleStaticRequest_hit net cs request S hm] at hfetch
      simp at hfetch
    | none =>
      rw [WebPages.handleStaticRequest_miss_ok net cs request R hm hnet hok]
      exact hstore _

theorem persisted_entry_keeps_request_witness :
    ∃ c, (WebPages.Handler.run WebPages.Handler.api Samples.online []
            Samples.authorizedRequest).caches.partition
          (WebPages.Handler.cacheName WebPages.Handler.api) = some c ∧
      (Samples.authorizedRequest, Samples.fresh) ∈ c ∧
      c.any entryHasAuthorization = true :=
  persisted_entry_keeps_request WebPages.Handler.api Samples.online []
    Samples.authorizedRequest Samples.fresh "Bearer secret-token" (by decide) rfl
    (by decide) (by decide) (by decide)


/-! ## WebPages worker: the shape of every handler run -/

/-- Every run of a handler is one of four cases: a hit in the handler's
partition (cache-first handlers only), an ok fetch that is stored, a fetch
answered with a response that is not ok, or a rejected fetch. -/
theorem handler_run_cases (h : WebPages.Handler) (net : Network) (cs : CacheStorage)
    (request : Request) :
    (∃ S, h.run net cs request
        = { result := Settled.fulfilled (some S), caches := cs, fetches := [] }) ∨
    (∃ R, net request = some R ∧ R.ok = true ∧
      h.run net cs request
        = { result := Settled.fulfilled (some R),
            caches := (cs.openCache h.cacheName).putIn h.cacheName request R,
            fetches := [request] }) ∨
    (∃ R, net request = some R ∧ R.ok = false ∧
      (h.run net cs request).result = Settled.fulfilled (some R) ∧
      (h.run net cs request).fetches = [request] ∧
      ((h.run net cs request).caches = cs ∨
        (h.run net cs request).caches = cs.openCache h.cacheName)) ∨
    (net request = none ∧ (h.run net cs request).fetches = [request] ∧
      (h.run net cs request).caches = cs.openCache h.cacheName) := by
  cases h with
  | pdf =>
    simp only [WebPages.Handler.run, WebPages.Handler.cacheName]
    cases hm : cs.matchIn WebPages.PDF_CACHE request with
    | some S => exact Or.inl ⟨S, WebPages.handlePdfRequest_hit net cs request S hm⟩
    | none =>
      cases hnet : net request with
      | none =>
        refine Or.inr (Or.inr (Or.inr ⟨rfl, ?_, ?_⟩)) <;>
          simp [WebPages.handlePdfRequest, cs.matchIn_openCache, hm, hnet]
      | some R =>
        by_cases hok : R.ok = true
        · exact Or.inr (Or.inl ⟨R, rfl, hok,
            WebPages.handlePdfRequest_miss_ok net cs request R hm hnet hok⟩)
        · have hok2 : R.ok = false := by simpa using hok
          refine Or.inr (Or.inr (Or.inl ⟨R, rfl, hok2, ?_, ?_, Or.inr ?_⟩)) <;>
            simp [WebPages.handlePdfRequest, cs.matchIn_openCache, hm, hnet, hok2]
  | thumbnail =>
    simp only [WebPages.Handler.run, WebPages.Handler.cacheName]
    cases hm : cs.matchIn WebPages.THUMBNAIL_CACHE request with
    | some S => exact Or.inl ⟨S, WebPages.handleThumbnailRequest_hit net cs request S hm⟩
    | none =>
      cases hnet : net request with
      | none =>
        refine Or.inr (Or.inr (Or.inr ⟨rfl, ?_, ?_⟩)) <;>
          simp [WebPages.handleThumbnailRequest, cs.matchIn_openCache, hm, hnet]
      | some R =>
        by_cases hok : R.ok = true
        · exact Or.inr (Or.inl ⟨R, rfl, hok,
            WebPages.handleThumbnailRequest_miss_ok net cs request R hm hnet hok⟩)
        · have hok2 : R.ok = false := by simpa using hok
          refine Or.inr (Or.inr (Or.inl ⟨R, rfl, hok2, ?_, ?_, Or.inr ?_⟩)) <;>
            simp [WebPages.handleThumbnailRequest, cs.matchIn_openCache, hm, hnet, hok2]
  | api =>
    simp only [WebPages.Handler.run, WebPages.Handler.cacheName]
    cases hnet : net request with
    | none =>
      refine Or.inr (Or.inr (Or.inr ⟨rfl, ?_, ?_⟩))
      · simp only [WebPages.handleApiRequest, hnet]
        cases (cs.openCache WebPages.API_CACHE).matchIn WebPages.API_CACHE request <;> rfl
      · simp only [WebPages.handleApiRequest, hnet]
        cases (cs.openCache WebPages.API_CACHE).matchIn WebPages.API_CACHE request <;> rfl
    | some R =>
      by_cases hok : R.ok = true
      · refine Or.inr (Or.inl ⟨R, rfl, hok, ?_⟩)
        simp [WebPages.handleApiRequest, hnet, hok, Response.clone_eq]
      · have hok2 : R.ok = false := by simpa using hok
        refine Or.inr (Or.inr (Or.inl ⟨R, rfl, hok2, ?_, ?_, Or.inl ?_⟩)) <;>
          simp [WebPages.handleApiRequest, hnet, hok2]
  | static =>
    simp only [WebPages.Handler.run, WebPages.Handler.cacheName]
    cases hm : cs.matchIn WebPages.CACHE_NAME request with
    | some S => exact Or.inl ⟨S, WebPages.handleStaticRequest_hit net cs request S hm⟩
    | none =>
      cases hnet : net request with
      | none =>
        refine Or.inr (Or.inr (Or.inr ⟨rfl, ?_, ?_⟩))
        · simp only [WebPages.handleStaticRequest, cs.matchIn_openCache, hm, hnet]
          split <;> rfl
        · simp only [WebPages.handleStaticRequest, cs.matchIn_openCache, hm, hnet]
          split <;> rfl
      | some R =>
        by_cases hok : R.ok = true
        · exact Or.inr (Or.inl ⟨R, rfl, hok,
            WebPages.handleStaticRequest_miss_ok net cs request R hm hnet hok⟩)
        · have hok2 : R.ok = false := by simpa using hok
          refine Or.inr (Or.inr (Or.inl ⟨R, rfl, hok2, ?_, ?_, Or.inr ?_⟩)) <;>
            simp [WebPages.handleStaticRequest, cs.matchIn_openCache, hm, hnet, hok2]


/-! ## WebPages worker: frame and persistence of the handlers -/

/-- A run of a fetch handler of the WebPages worker touches at most the handler's
own partition and, within it, at most the entry of the handled request: every
other partition is exactly as before, every other key of the handler's
partition maps to the same snapshot as before, and when the network fetch it
issues returns an ok response that the platform cache accepts, that response is
written into the handler's partition (the one partition written). -/
theorem handler_frame (h : WebPages.Handler) (net : Network) (cs : CacheStorage)
    (request : Request) :
    (∀ n, n ≠ h.cacheName → (h.run net cs request).caches.partition n = cs.partition n) ∧
    (∀ other, sameKey other request = false →
      (h.run net cs request).caches.matchIn h.cacheName other
        = cs.matchIn h.cacheName other) ∧
    (∀ R, net request = some R → R.ok = true → (h.run net cs request).fetches = [request] →
      Cache.accepts request R = true →
      (h.run net cs request).caches.matchIn h.cacheName request = some R) := by
  rcases handler_run_cases h net cs request with
    ⟨S, hrun⟩ | ⟨R, hnet, hok, hrun⟩ | ⟨R, hnet, hok, _, _, hc⟩ | ⟨hnet, _, hc⟩
  · rw [hrun]
    refine ⟨fun _ _ => rfl, fun _ _ => rfl, ?_⟩
    intro R _ _ hf _
    simp at hf
  · rw [hrun]
    refine ⟨?_, ?_, ?_⟩
    · intro n hn
      rw [CacheStorage.partition_putIn_other _ _ _ _ _ hn,
        cs.partition_openCache_other _ _ hn]
    · intro other ho
      rw [CacheStorage.matchIn_putIn_other _ _ _ _ _ _ ho, cs.matchIn_openCache]
    · intro R2 hnet2 _ _ hacc
      rw [hnet] at hnet2
      cases hnet2
      exact WebPages.matchIn_after_store cs _ request R hacc
  · refine ⟨?_, ?_, ?_⟩
    · intro n hn
      rcases hc with hc | hc
      · rw [hc]
      · rw [hc, cs.partition_openCache_other _ _ hn]
    · intro other _
      rcases hc with hc | hc
      · rw [hc]
      · rw [hc, cs.matchIn_openCache]
    · intro R2 hnet2 hok2 _ _
      rw [hnet] at hnet2
      cases hnet2
      rw [hok] at hok2
      exact absurd hok2 (by decide)
  · refine ⟨?_, ?_, ?_⟩
    · intro n hn
      rw [hc, cs.partition_openCache_other _ _ hn]
    · intro other _
      rw [hc, cs.matchIn_openCache]
    · intro R2 hnet2 _ _ _
      rw [hnet] at hnet2
      cases hnet2

theorem handler_frame_witness :
    (WebPages.Handler.run WebPages.Handler.api Samples.online Samples.warmStorage
        Samples.apiRequest).caches.partition WebPages.PDF_CACHE
      = Samples.warmStorage.partition WebPages.PDF_CACHE ∧
    (WebPages.Handler.run WebPages.Handler.api Samples.online Samples.warmStorage
        Samples.apiRequest).caches.matchIn
        (WebPages.Handler.cacheName WebPages.Handler.api) Samples.authorizedRequest
      = Samples.warmStorage.matchIn (WebPages.Handler.cacheName WebPages.Handler.api)
          Samples.authorizedRequest ∧
    (WebPages.Handler.run WebPages.Handler.api Samples.online Samples.warmStorage
        Samples.apiRequest).caches.matchIn
        (WebPages.Handler.cacheName WebPages.Handler.api) Samples.apiRequest
      = some Samples.fresh :=
  ⟨(handler_frame WebPages.Handler.api Samples.online Samples.warmStorage
      Samples.apiRequest).1 WebPages.PDF_CACHE (by decide),
   (handler_frame WebPages.Handler.api Samples.online Samples.warmStorage
      Samples.apiRequest).2.1 Samples.authorizedRequest (by decide),
   (handler_frame WebPages.Handler.api Samples.online Samples.warmStorage
      Samples.apiRequest).2.2 Samples.fresh rfl (by decide) (by decide) (by decide)⟩

/-- C20: only ok responses are persisted by the WebPages worker. When the network
fetch a handler issues returns a response `R` that is not ok, the handler returns
`R` and no snapshot is written: every partition that existed keeps its contents,
no partition gains an entry (opening the handler's cache can at most create it
empty), and every lookup in every partition gives what it gave before. -/
theorem non_ok_not_persisted (h : WebPages.Handler) (net : Network) (cs : CacheStorage)
    (request : Request) (R : Response) (hnet : net request = some R)
    (hok : R.ok = false) (hfetch : (h.run net cs request).fetches = [request]) :
    (h.run net cs request).result = Settled.fulfilled (some R) ∧
    (∀ n, ((h.run net cs request).caches.partition n).getD [] = (cs.partition n).getD []) ∧
    (∀ n c, cs.partition n = some c →
      (h.run net cs request).caches.partition n = some c) ∧
    (∀ n other, (h.run net cs request).caches.matchIn n other = cs.matchIn n other) := by
  rcases handler_run_cases h net cs request with
    ⟨S, hrun⟩ | ⟨R2, hnet2, hok2, _⟩ | ⟨R2, hnet2, _, hres, _, hc⟩ | ⟨hnet2, _, _⟩
  · rw [hrun] at hfetch
    simp at hfetch
  · rw [hnet] at hnet2
    cases hnet2
    rw [hok] at hok2
    exact absurd hok2 (by decide)
  · rw [hnet] at hnet2
    cases hnet2
    refine ⟨hres, ?_, ?_, ?_⟩
    · intro n
      rcases hc with hc | hc
      · rw [hc]
      · rw [hc, cs.getD_partition_openCache]
    · intro n c hn
      rcases hc with hc | hc
      · rw [hc, hn]
      · rw [hc, cs.partition_openCache]
        by_cases hname : n = h.cacheName
        · subst hname; simp [hn]
        · simp [hname, hn]
    · intro n other
      rcases hc with hc | hc
      · rw [hc]
      · rw [hc, cs.matchIn_openCache]
  · rw [hnet] at hnet2
    cases hnet2

theorem non_ok_not_persisted_witness :
    (WebPages.Handler.run WebPages.Handler.api Samples.missing Samples.warmStorage
        Samples.apiRequest).result = Settled.fulfilled (some Samples.notFound) ∧
    (WebPages.Handler.run WebPages.Handler.api Samples.missing Samples.warmStorage
        Samples.apiRequest).caches.matchIn WebPages.API_CACHE Samples.apiRequest
      = Samples.warmStorage.matchIn WebPages.API_CACHE Samples.apiRequest ∧
    (WebPages.Handler.run WebPages.Handler.pdf Samples.missing [] Samples.pdfRequest).result
      = Settled.fulfilled (some Samples.notFound) ∧
    ((WebPages.Handler.run WebPages.Handler.pdf Samples.missing []
        Samples.pdfRequest).caches.partition WebPages.PDF_CACHE).getD []
      = (CacheStorage.partition [] WebPages.PDF_CACHE).getD [] :=
  ⟨(non_ok_not_persisted WebPages.Handler.api Samples.missing Samples.warmStorage
      Samples.apiRequest Samples.notFound rfl (by decide) (by decide)).1,
   (non_ok_not_persisted WebPages.Handler.api Samples.missing Samples.warmStorage
      Samples.apiRequest Samples.notFound rfl (by decide) (by decide)).2.2.2
      WebPages.API_CACHE Samples.apiRequest,
   (non_ok_not_persisted WebPages.Handler.pdf Samples.missing [] Samples.pdfRequest
      Samples.notFound rfl (by decide) (by decide)).1,
   (non_ok_not_persisted WebPages.Handler.pdf Samples.missing [] Samples.pdfRequest
      Samples.notFound rfl (by decide) (by decide)).2.1 WebPages.PDF_CACHE⟩


/-! ## Background reconciliation -/

theorem storeSettled_matchIn_other (cs : CacheStorage) (u : String)
    (response : Option Response) (n : String) (other : Request)
    (h : sameKey other (Request.ofUrl u "") = false) :
    (PwaExample.storeSettled cs (some u) response).matchIn n other = cs.matchIn n other := by
  unfold PwaExample.storeSettled
  cases response with
  | none => rfl
  | some value =>
    by_cases hok : value.ok = true
    · simp only [hok, if_true]
      exact cs.matchIn_putIn_other _ n _ other _ h
    · simp [hok]

theorem storeSettled_matchIn_self (cs : CacheStorage) (u : String) (r : Response)
    (hp : (cs.partition PwaExample.EDUCATIONAL_MISSION_CACHE).isSome = true)
    (hok : r.ok = true) (ha : Cache.accepts (Request.ofUrl u "") r = true) :
    (PwaExample.storeSettled cs (some u) (some r)).matchIn
        PwaExample.EDUCATIONAL_MISSION_CACHE (Request.ofUrl u "") = some r := by
  simp only [PwaExample.storeSettled, hok, if_true, Response.clone_eq]
  exact cs.matchIn_putIn_self _ _ r hp ha

theorem storeSettled_failed (cs : CacheStorage) (url : Option String)
    (response : Option Response)
    (h : response = none ∨ ∃ r, response = some r ∧ r.ok = false) :
    PwaExample.storeSettled cs url response = cs := by
  rcases h with h | ⟨r, h, hok⟩
  · subst h; rfl
  · subst h; simp [PwaExample.storeSettled, hok]

theorem storeSettled_rejected (cs : CacheStorage) (u : String) (r : Response)
    (ha : Cache.accepts (Request.ofUrl u "") r = false) :
    PwaExample.storeSettled cs (some u) (some r) = cs := by
  unfold PwaExample.storeSettled
  by_cases hok : r.ok = true
  · simp only [hok, if_true, Response.clone_eq]
    exact cs.putIn_of_rejected _ _ r ha
  · simp [hok]

theorem storeSettled_isSome_partition (cs : CacheStorage) (url : Option String)
    (response : Option Response) (n : String) :
    ((PwaExample.storeSettled cs url response).partition n).isSome
      = (cs.partition n).isSome := by
  unfold PwaExample.storeSettled
  cases response with
  | none => rfl
  | some value =>
    by_cases hok : value.ok = true
    · cases url with
      | none => simp [hok]
      | some u =>
        simp only [hok, if_true]
        exact isSome_partition_putIn cs _ n _ _
    · simp [hok]

theorem updateEducationalContent_caches (net : Network) (cs : CacheStorage) :
    (PwaExample.updateEducationalContent net cs).caches
      = PwaExample.storeSettled
          (PwaExample.storeSettled
            (PwaExample.storeSettled (cs.openCache PwaExample.EDUCATIONAL_MISSION_CACHE)
              (some "/api/books/featured") (net (Request.ofUrl "/api/books/featured" "")))
            (some "/api/categories") (net (Request.ofUrl "/api/categories" "")))
          (some "/api/books/offline-essentials")
          (net (Request.ofUrl "/api/books/offline-essentials" "")) := rfl

/-- C13: `updateEducationalContent` over its three entries, entry by entry: an
entry whose fetch fulfils with an ok response (one the platform cache accepts:
no 206, no `Vary: *`) has that response stored under its own URL in the
educational-content partition; an entry whose fetch fails
(rejected, or not ok) keeps exactly the snapshot it had before, if any; and
the routine always completes normally, its `catch` branch not taken. So with
one fetch failing the other two entries are updated and the failing one is
left untouched. A response the platform cache refuses is not stored either and
leaves the entry as it was. -/
theorem reconciliation_partial_success (net : Network) (cs : CacheStorage) (u : String)
    (hu : u ∈ ["/api/books/featured", "/api/categories", "/api/books/offline-essentials"]) :
    (∀ r, net (Request.ofUrl u "") = some r → r.ok = true →
      Cache.accepts (Request.ofUrl u "") r = true →
      (PwaExample.updateEducationalContent net cs).caches.matchIn
          PwaExample.EDUCATIONAL_MISSION_CACHE (Request.ofUrl u "") = some r) ∧
    ((net (Request.ofUrl u "") = none ∨
        ∃ r, net (Request.ofUrl u "") = some r ∧ r.ok = false) →
      (PwaExample.updateEducationalContent net cs).caches.matchIn
          PwaExample.EDUCATIONAL_MISSION_CACHE (Request.ofUrl u "")
        = cs.matchIn PwaExample.EDUCATIONAL_MISSION_CACHE (Request.ofUrl u "")) ∧
    (∀ r, net (Request.ofUrl u "") = some r →
      Cache.accepts (Request.ofUrl u "") r = false →
      (PwaExample.updateEducationalContent net cs).caches.matchIn
          PwaExample.EDUCATIONAL_MISSION_CACHE (Request.ofUrl u "")
        = cs.matchIn PwaExample.EDUCATIONAL_MISSION_CACHE (Request.ofUrl u "")) ∧
    (PwaExample.updateEducationalContent net cs).caught = false ∧
    (PwaExample.updateEducationalContent net cs).loggedSuccess = true ∧
    (PwaExample.updateEducationalContent net cs).fetches
      = [Request.ofUrl "/api/books/featured" "", Request.ofUrl "/api/categories" "",
         Request.ofUrl "/api/books/offline-essentials" ""] := by
  have hopen := cs.isSome_partition_openCache PwaExample.EDUCATIONAL_MISSION_CACHE
  refine ⟨?_, ?_, ?_, rfl, rfl, rfl⟩
  · intro r hnet hok hacc
    rw [updateEducationalContent_caches]
    simp only [List.mem_cons, List.mem_singleton, List.not_mem_nil, or_false] at hu
    rcases hu with hu | hu | hu
    · subst hu
      rw [storeSettled_matchIn_other _ _ _ _ _ (by decide),
        storeSettled_matchIn_other _ _ _ _ _ (by decide), hnet]
      exact storeSettled_matchIn_self _ _ r hopen hok hacc
    · subst hu
      rw [storeSettled_matchIn_other _ _ _ _ _ (by decide), hnet]
      exact storeSettled_matchIn_self _ _ r
        (by rw [storeSettled_isSome_partition]; exact hopen) hok hacc
    · subst hu
      rw [hnet]
      exact storeSettled_matchIn_self _ _ r
        (by rw [storeSettled_isSome_partition, storeSettled_isSome_partition]; exact hopen)
        hok hacc
  · intro hfail
    rw [updateEducationalContent_caches]
    simp only [List.mem_cons, List.mem_singleton, List.not_mem_nil, or_false] at hu
    rcases hu with hu | hu | hu
    · subst hu
      rw [storeSettled_matchIn_other _ _ _ _ _ (by decide),
        storeSettled_matchIn_other _ _ _ _ _ (by decide),
        storeSettled_failed _ _ _ hfail, cs.matchIn_openCache]
    · subst hu
      rw [storeSettled_matchIn_other _ _ _ _ _ (by decide),
        storeSettled_failed _ _ _ hfail,
        storeSettled_matchIn_other _ _ _ _ _ (by decide), cs.matchIn_openCache]
    · subst hu
      rw [storeSettled_failed _ _ _ hfail,
        storeSettled_matchIn_other _ _ _ _ _ (by decide),
        storeSettled_matchIn_other _ _ _ _ _ (by decide), cs.matchIn_openCache]
  · intro r hnet hrej
    rw [updateEducationalContent_caches]
    simp only [List.mem_cons, List.mem_singleton, List.not_mem_nil, or_false] at hu
    rcases hu with hu | hu | hu
    · subst hu
      rw [storeSettled_matchIn_other _ _ _ _ _ (by decide),
        storeSettled_matchIn_other _ _ _ _ _ (by decide), hnet,
        storeSettled_rejected _ _ _ hrej, cs.matchIn_openCache]
    · subst hu
      rw [storeSettled_matchIn_other _ _ _ _ _ (by decide), hnet,
        storeSettled_rejected _ _ _ hrej,
        storeSettled_matchIn_other _ _ _ _ _ (by decide), cs.matchIn_openCache]
    · subst hu
      rw [hnet, storeSettled_rejected _ _ _ hrej,
        storeSettled_matchIn_other _ _ _ _ _ (by decide),
        storeSettled_matchIn_other _ _ _ _ _ (by decide), cs.matchIn_openCache]

theorem reconciliation_partial_success_witness :
    (PwaExample.updateEducationalContent Samples.flaky Samples.educationalStorage).caches.matchIn
        PwaExample.EDUCATIONAL_MISSION_CACHE (Request.ofUrl "/api/books/featured" "")
      = some Samples.fresh ∧
    (PwaExample.updateEducationalContent Samples.flaky Samples.educationalStorage).caches.matchIn
        PwaExample.EDUCATIONAL_MISSION_CACHE (Request.ofUrl "/api/books/offline-essentials" "")
      = some Samples.fresh ∧
    (PwaExample.updateEducationalContent Samples.flaky Samples.educationalStorage).caches.matchIn
        PwaExample.EDUCATIONAL_MISSION_CACHE (Request.ofUrl "/api/categories" "")
      = some Samples.snapshot ∧
    (PwaExample.updateEducationalContent Samples.flaky Samples.educationalStorage).caught
      = false :=
  ⟨(reconciliation_partial_success Samples.flaky Samples.educationalStorage
      "/api/books/featured" (by decide)).1 Samples.fresh (by decide) (by decide)
      (by decide),
   (reconciliation_partial_success Samples.flaky Samples.educationalStorage
      "/api/books/offline-essentials" (by decide)).1 Samples.fresh (by decide) (by decide)
      (by decide),
   ((reconciliation_partial_success Samples.flaky Samples.educationalStorage
      "/api/categories" (by decide)).2.1 (Or.inl (by decide))).trans (by decide),
   (reconciliation_partial_success Samples.flaky Samples.educationalStorage
      "/api/categories" (by decide)).2.2.2.1⟩

/-- C14, the code at the failing input: the `library-sync` signal fires on an empty
cache storage with both fetches fulfilling with ok responses. `syncLibraryData`
fetches the two entries and drops the responses: the cache storage afterwards is
still empty and the API partition holds no snapshot for `/api/categories`. -/
theorem sync_stores_nothing :
    Samples.online (Request.ofUrl "/api/categories" "") = some Samples.fresh ∧
    Samples.fresh.ok = true ∧
    (WebPages.syncListener "library-sync" Samples.online []).map (fun out => out.caches)
      = some [] ∧
    (WebPages.syncListener "library-sync" Samples.online []).map
        (fun out => out.caches.matchIn WebPages.API_CACHE (Request.ofUrl "/api/categories" ""))
      = some none := by
  decide

/-- What `syncLibraryData` does for every network and storage: it fetches both
entries of its reconciliation set (`/api/categories` and
`/api/books/search?limit=100`) and leaves the cache storage as it was. The two
fetches are joined by `Promise.all`: the routine takes its `catch` branch
exactly when one of them rejects, and logs success exactly when both fulfil
with ok responses. -/
theorem sync_fetches_without_storing (net : Network) (cs : CacheStorage) :
    WebPages.syncListener "library-sync" net cs = some (WebPages.syncLibraryData net cs) ∧
    (WebPages.syncLibraryData net cs).caches = cs ∧
    (WebPages.syncLibraryData net cs).fetches
      = [Request.ofUrl "/api/categories" "", Request.ofUrl "/api/books/search" "?limit=100"] ∧
    ((WebPages.syncLibraryData net cs).caught = true ↔
      (net (Request.ofUrl "/api/categories" "") = none ∨
        net (Request.ofUrl "/api/books/search" "?limit=100") = none)) ∧
    ((WebPages.syncLibraryData net cs).loggedSuccess = true ↔
      ((∃ r, net (Request.ofUrl "/api/categories" "") = some r ∧ r.ok = true) ∧
        ∃ r, net (Request.ofUrl "/api/books/search" "?limit=100") = some r ∧ r.ok = true)) := by
  refine ⟨by simp [WebPages.syncListener], ?_, ?_, ?_, ?_⟩
  · unfold WebPages.syncLibraryData
    simp only []
    split <;> rfl
  · unfold WebPages.syncLibraryData
    simp only []
    split <;> rfl
  · unfold WebPages.syncLibraryData
    cases h1 : net (Request.ofUrl "/api/categories" "") <;>
      cases h2 : net (Request.ofUrl "/api/books/search" "?limit=100") <;>
      simp [h1, h2]
  · unfold WebPages.syncLibraryData
    cases h1 : net (Request.ofUrl "/api/categories" "") <;>
      cases h2 : net (Request.ofUrl "/api/books/search" "?limit=100") <;>
      simp [h1, h2]


/-! ## Requests outside the category patterns -/

/-- C16, counterexample: in the WebPages worker a GET request whose path matches
none of the three `/api/` patterns is not left to the network: the `fetch`
listener answers it through `handleStaticRequest`, which stores the fetched
response in `CACHE_NAME` and serves a stored snapshot without any fetch. -/
theorem unmatched_request_is_cached :
    (startsWith Samples.otherRequest.pathname "/api/books/" &&
      endsWith Samples.otherRequest.pathname "/pdf") = false ∧
    startsWith Samples.otherRequest.pathname "/api/thumbnails/" = false ∧
    startsWith Samples.otherRequest.pathname "/api/" = false ∧
    (WebPages.fetchListener Samples.online [] Samples.otherRequest).caches
      = [(WebPages.CACHE_NAME, [(Samples.otherRequest, Samples.fresh)])] ∧
    WebPages.fetchListener Samples.offline
        [(WebPages.CACHE_NAME, [(Samples.otherRequest, Samples.snapshot)])]
        Samples.otherRequest
      = { result := Settled.fulfilled (some Samples.snapshot),
          caches := [(WebPages.CACHE_NAME, [(Samples.otherRequest, Samples.snapshot)])],
          fetches := [] } := by
  decide

/-- C16, amended: in the pwa-learning-example worker the `fetch` listener leaves a
request unhandled (no `respondWith`, so no partition is read or written and the
request goes to the network) exactly when it is not a GET request or its path
matches none of the three branch patterns. In the WebPages worker no request
is left unhandled: a request whose path matches none of the three `/api/`
patterns is answered by `handleStaticRequest`, cache-first on `CACHE_NAME`. -/
theorem unmatched_requests (net : Network) (cs : CacheStorage) (request : Request) :
    (PwaExample.fetchListener net cs request = none ↔
      (request.method ≠ "GET" ∨
        ((startsWith request.pathname "/api/books" ||
            startsWith request.pathname "/api/categories") = false ∧
         (startsWith request.pathname "/static/" || endsWith request.pathname ".css" ||
            endsWith request.pathname ".js" || endsWith request.pathname ".png" ||
            endsWith request.pathname ".ico") = false ∧
         (endsWith request.pathname ".html" || decide (request.pathname = "/")) = false))) ∧
    ((startsWith request.pathname "/api/books/" && endsWith request.pathname "/pdf") = false →
      startsWith request.pathname "/api/thumbnails/" = false →
      startsWith request.pathname "/api/" = false →
      WebPages.fetchListener net cs request = WebPages.handleStaticRequest net cs request) := by
  constructor
  · unfold PwaExample.fetchListener
    by_cases hget : request.method = "GET"
    · cases h1 : (startsWith request.pathname "/api/books" ||
          startsWith request.pathname "/api/categories") <;>
        cases h2 : (startsWith request.pathname "/static/" ||
          endsWith request.pathname ".css" || endsWith request.pathname ".js" ||
          endsWith request.pathname ".png" || endsWith request.pathname ".ico") <;>
        cases h3 : (endsWith request.pathname ".html" ||
          decide (request.pathname = "/")) <;>
        simp [hget, h1, h2, h3]
    · simp [hget]
  · intro h1 h2 h3
    simp [WebPages.fetchListener, WebPages.route, h1, h2, h3, WebPages.Handler.run]

theorem unmatched_requests_witness :
    PwaExample.fetchListener Samples.online Samples.educationalStorage Samples.postRequest
      = none ∧
    PwaExample.fetchListener Samples.online Samples.educationalStorage Samples.otherRequest
      = none ∧
    WebPages.fetchListener Samples.online [] Samples.otherRequest
      = WebPages.handleStaticRequest Samples.online [] Samples.otherRequest :=
  ⟨(unmatched_requests Samples.online Samples.educationalStorage Samples.postRequest).1.2
      (Or.inl (by decide)),
   (unmatched_requests Samples.online Samples.educationalStorage Samples.otherRequest).1.2
      (Or.inr (by decide)),
   (unmatched_requests Samples.online [] Samples.otherRequest).2 (by decide) (by decide)
      (by decide)⟩

/-! ## pwa-learning-example worker: the educational API branch -/

/-- C17, counterexample: with a snapshot for `/api/categories` already cached
and the network ready to return the ok response `fresh`, the educational API
branch returns the cached snapshot and never attempts the network. -/
theorem pwa_api_serves_cache_first :
    Samples.apiRequest.method = "GET" ∧
    startsWith Samples.apiRequest.pathname "/api/categories" = true ∧
    Samples.online Samples.apiRequest = some Samples.fresh ∧
    Samples.fresh.ok = true ∧
    PwaExample.fetchListener Samples.online Samples.educationalStorage Samples.apiRequest
      = some { result := Settled.fulfilled (some Samples.snapshot),
               caches := Samples.educationalStorage, fetches := [] } := by
  decide

/-- C17, amended: in the pwa-learning-example worker every GET request whose path
starts with `/api/books` or `/api/categories` is resolved cache-first. When some
partition holds a snapshot for the request it is returned, with no network
fetch and no write. Only on a miss is the network attempted; an ok response `R`
is then returned and put into the educational-content partition, which maps the
request to `R` afterwards when the platform cache accepts the pair (no 206, no
`Vary: *`). -/
theorem pwa_api_cache_first (net : Network) (cs : CacheStorage) (request : Request)
    (hget : request.method = "GET")
    (hpath : (startsWith request.pathname "/api/books" ||
      startsWith request.pathname "/api/categories") = true) :
    (∀ S, cs.matchAny request = some S →
      PwaExample.fetchListener net cs request
        = some { result := Settled.fulfilled (some S), caches := cs, fetches := [] }) ∧
    (∀ R, cs.matchAny request = none → net request = some R → R.ok = true →
      PwaExample.fetchListener net cs request
        = some { result := Settled.fulfilled (some R),
                 caches := (cs.openCache PwaExample.EDUCATIONAL_MISSION_CACHE).putIn
                   PwaExample.EDUCATIONAL_MISSION_CACHE request R,
                 fetches := [request] } ∧
      (Cache.accepts request R = true →
        ((cs.openCache PwaExample.EDUCATIONAL_MISSION_CACHE).putIn
            PwaExample.EDUCATIONAL_MISSION_CACHE request R).matchIn
            PwaExample.EDUCATIONAL_MISSION_CACHE request = some R) ∧
      (Cache.accepts request R = false →
        (cs.openCache PwaExample.EDUCATIONAL_MISSION_CACHE).putIn
            PwaExample.EDUCATIONAL_MISSION_CACHE request R
          = cs.openCache PwaExample.EDUCATIONAL_MISSION_CACHE)) := by
  constructor
  · intro S hS
    simp [PwaExample.fetchListener, hget, hpath, PwaExample.educationalApiBranch, hS]
  · intro R hmiss hnet hok
    refine ⟨?_, WebPages.matchIn_after_store cs _ request R,
      CacheStorage.putIn_of_rejected _ _ request R⟩
    simp [PwaExample.fetchListener, hget, hpath, PwaExample.educationalApiBranch, hmiss,
      PwaExample.fetchAndStore, hnet, hok, Response.clone_eq]

theorem pwa_api_cache_first_witness :
    PwaExample.fetchListener Samples.online Samples.educationalStorage Samples.apiRequest
        = some { result := Settled.fulfilled (some Samples.snapshot),
                 caches := Samples.educationalStorage, fetches := [] } ∧
    PwaExample.fetchListener Samples.online [] Samples.apiRequest
        = some { result := Settled.fulfilled (some Samples.fresh),
                 caches := (CacheStorage.openCache []
                   PwaExample.EDUCATIONAL_MISSION_CACHE).putIn
                   PwaExample.EDUCATIONAL_MISSION_CACHE Samples.apiRequest Samples.fresh,
                 fetches := [Samples.apiRequest] } ∧
    ((CacheStorage.openCache [] PwaExample.EDUCATIONAL_MISSION_CACHE).putIn
        PwaExample.EDUCATIONAL_MISSION_CACHE Samples.apiRequest Samples.fresh).matchIn
        PwaExample.EDUCATIONAL_MISSION_CACHE Samples.apiRequest = some Samples.fresh :=
  ⟨(pwa_api_cache_first Samples.online Samples.educationalStorage Samples.apiRequest rfl
      (by decide)).1 Samples.snapshot (by decide),
   ((pwa_api_cache_first Samples.online [] Samples.apiRequest rfl (by decide)).2
      Samples.fresh rfl rfl (by decide)).1,
   ((pwa_api_cache_first Samples.online [] Samples.apiRequest rfl (by decide)).2
      Samples.fresh rfl rfl (by decide)).2.1 (by decide)⟩

/-! ## Deployment script and retention of the PDF partition -/

/-- C18, the code at the failing input: for a file line calling
`http://127.0.0.1:8081/api/books` and the backend URL of the usage example, the
replacement loop first rewrites the relative `/api/` inside the absolute URL, so
the later patterns no longer match: the result keeps the local origin in front
of the API path and differs from the content with each local API URL replaced
by the backend URL followed by `/api/`. -/
theorem replacement_keeps_local_origin :
    UpdateApiUrls.updateContent Samples.backendUrl Samples.htmlLine
      = ("fetch(\x22http://127.0.0.1:8081https://andylibrary-api.herokuapp.com/api/books\x22)",
         true) ∧
    UpdateApiUrls.intendedContent Samples.backendUrl Samples.htmlLine
      = "fetch(\x22https://andylibrary-api.herokuapp.com/api/books\x22)" ∧
    UpdateApiUrls.contentMatches
        (UpdateApiUrls.updateContent Samples.backendUrl Samples.htmlLine).1
        "http://127.0.0.1:8081" = true ∧
    (UpdateApiUrls.updateContent Samples.backendUrl Samples.htmlLine).1
      ≠ UpdateApiUrls.intendedContent Samples.backendUrl Samples.htmlLine := by
  decide

/-- C19, the code at the failing input: the cache `handlePdfRequest` opens,
`PDF_CACHE`, is not among the names the `activate` listener retains, so
activation deletes it from every storage; a PDF stored by the handler is gone
after a subsequent activation, while the partitions of the other three
handlers are retained as they are. -/
theorem activate_deletes_pdf_partition (cs : CacheStorage) :
    (WebPages.activate cs).partition WebPages.PDF_CACHE = none ∧
    (WebPages.activate cs).partition WebPages.THUMBNAIL_CACHE
      = cs.partition WebPages.THUMBNAIL_CACHE ∧
    (WebPages.activate cs).partition WebPages.API_CACHE = cs.partition WebPages.API_CACHE ∧
    (WebPages.activate cs).partition WebPages.CACHE_NAME
      = cs.partition WebPages.CACHE_NAME ∧
    (WebPages.handlePdfRequest Samples.online [] Samples.pdfRequest).caches.matchIn
        WebPages.PDF_CACHE Samples.pdfRequest = some Samples.fresh ∧
    (WebPages.activate
        (WebPages.handlePdfRequest Samples.online [] Samples.pdfRequest).caches).matchIn
        WebPages.PDF_CACHE Samples.pdfRequest = none := by
  refine ⟨?_, ?_, ?_, ?_, by decide, by decide⟩
  · rw [WebPages.activate, webPages_partition_activateWith, if_pos (by decide)]
  · rw [WebPages.activate, webPages_partition_activateWith, if_neg (by simp)]
  · rw [WebPages.activate, webPages_partition_activateWith, if_neg (by simp)]
  · rw [WebPages.activate, webPages_partition_activateWith, if_neg (by simp)]


/-! ## Sign-in with Google Identity Services -/

theorem ParseJWT_of_undecodable (P : GoogleDriveAuth.Platform) (token : Option String)
    (h : GoogleDriveAuth.decodeJWT P token = none) :
    GoogleDriveAuth.ParseJWT P token = GoogleDriveAuth.Parsed.object [] := by
  simp [GoogleDriveAuth.ParseJWT, h]

/-- Whatever makes decoding fail, `HandleCredentialResponse` sees the empty object
returned by `ParseJWT`, builds a user of undefined fields from it and signs in. -/
theorem handle_undecodable (P : GoogleDriveAuth.Platform)
    (successThrows : GoogleDriveAuth.User → Bool) (st : GoogleDriveAuth.AuthState)
    (response : GoogleDriveAuth.CredentialResponse)
    (h : GoogleDriveAuth.decodeJWT P response.credential = none) :
    (GoogleDriveAuth.HandleCredentialResponse P successThrows st response).state
      = { isSignedIn := true, currentUser := some GoogleDriveAuth.emptyUser } ∧
    (GoogleDriveAuth.HandleCredentialResponse P successThrows st response).events.head?
      = some (GoogleDriveAuth.Event.onSignInSuccess GoogleDriveAuth.emptyUser) := by
  have hu : GoogleDriveAuth.userOfPayload (GoogleDriveAuth.ParseJWT P response.credential)
      = some GoogleDriveAuth.emptyUser := by
    rw [ParseJWT_of_undecodable P _ h]; rfl
  simp only [GoogleDriveAuth.HandleCredentialResponse, hu]
  cases successThrows GoogleDriveAuth.emptyUser <;> simp

/-- C21, the code at the failing input: a credential that is not a JWT
(`"not-a-jwt"`, no dot-separated second part) and a missing credential cannot be
decoded on any platform, yet `ParseJWT` swallows the error and returns `{}`, so
`HandleCredentialResponse` sets `isSignedIn` to true, replaces `currentUser` by a
user whose fields are all undefined and invokes `OnSignInSuccess`;
`OnSignInError` is not invoked. -/
theorem undecodable_credential_signs_in (P : GoogleDriveAuth.Platform)
    (st : GoogleDriveAuth.AuthState) :
    GoogleDriveAuth.decodeJWT P (some "not-a-jwt") = none ∧
    GoogleDriveAuth.decodeJWT P none = none ∧
    GoogleDriveAuth.HandleCredentialResponse P (fun _ => false) st
        { credential := some "not-a-jwt" }
      = { state := { isSignedIn := true, currentUser := some GoogleDriveAuth.emptyUser },
          events := [GoogleDriveAuth.Event.onSignInSuccess GoogleDriveAuth.emptyUser] } ∧
    GoogleDriveAuth.HandleCredentialResponse P (fun _ => false) st { credential := none }
      = { state := { isSignedIn := true, currentUser := some GoogleDriveAuth.emptyUser },
          events := [GoogleDriveAuth.Event.onSignInSuccess GoogleDriveAuth.emptyUser] } ∧
    (GoogleDriveAuth.HandleCredentialResponse P (fun _ => false)
        GoogleDriveAuth.initialState { credential := some "not-a-jwt" }).state
      ≠ GoogleDriveAuth.initialState :=
  ⟨rfl, rfl, rfl, rfl, fun h => by
    have h2 : (true : Bool) = false := congrArg GoogleDriveAuth.AuthState.isSignedIn h
    exact Bool.noConfusion h2⟩


/-! ## Responses the platform cache refuses -/

/-- C2, the code at the failing input: `POST /api/books` is routed to
`handleApiRequest`; the network answers with the ok response `fresh`, the
handler returns it and logs that it was cached, but the platform refuses
`cache.put` for a request that is not `GET`, so afterwards the API partition
exists, is empty, and does not map the request to the response. -/
theorem api_post_response_not_stored :
    WebPages.route Samples.postRequest.pathname = WebPages.Handler.api ∧
    Samples.online Samples.postRequest = some Samples.fresh ∧
    Samples.fresh.ok = true ∧
    (WebPages.fetchListener Samples.online [] Samples.postRequest).result
      = Settled.fulfilled (some Samples.fresh) ∧
    (WebPages.handleApiRequest Samples.online [] Samples.postRequest).result
      = Settled.fulfilled (some Samples.fresh) ∧
    (WebPages.handleApiRequest Samples.online [] Samples.postRequest).caches
      = [(WebPages.API_CACHE, [])] ∧
    (WebPages.handleApiRequest Samples.online [] Samples.postRequest).caches.matchIn
        WebPages.API_CACHE Samples.postRequest = none := by
  decide

/-- C5, the code at the failing input: a PDF request with no stored snapshot whose
fetch is answered with an ok response of status 206. The first call of
`handlePdfRequest` returns that response, but the platform refuses `cache.put`
for a 206, so nothing is stored, and the second call with the network failing
answers with the 503 response instead of the snapshot. -/
theorem partial_pdf_round_trip_fails :
    CacheStorage.matchIn [] WebPages.PDF_CACHE Samples.pdfRequest = none ∧
    Samples.ranged Samples.pdfRequest = some Samples.partialContent ∧
    Samples.partialContent.ok = true ∧
    (WebPages.handlePdfRequest Samples.ranged [] Samples.pdfRequest).result
      = Settled.fulfilled (some Samples.partialContent) ∧
    (WebPages.handlePdfRequest Samples.ranged [] Samples.pdfRequest).caches
      = [(WebPages.PDF_CACHE, [])] ∧
    (WebPages.handlePdfRequest Samples.offline
        (WebPages.handlePdfRequest Samples.ranged [] Samples.pdfRequest).caches
        Samples.pdfRequest).result
      = Settled.fulfilled (some
          { status := 503, headers := [("Content-Type", "text/plain")],
            body := Body.text "PDF unavailable offline" }) := by
  decide

/-- C15, the code at the failing input: two handler runs whose network fetch
succeeds with an ok response and which write into no partition at all, where one
partition should have been written. `handleApiRequest` on `POST /api/books`
and `handlePdfRequest` on a PDF answered with status 206 both issue the fetch
and return the response, and every partition of the resulting storage is
empty. -/
theorem ok_fetch_written_nowhere :
    (WebPages.Handler.run WebPages.Handler.api Samples.online [] Samples.postRequest).fetches
      = [Samples.postRequest] ∧
    Samples.online Samples.postRequest = some Samples.fresh ∧
    Samples.fresh.ok = true ∧
    List.all (WebPages.Handler.run WebPages.Handler.api Samples.online []
        Samples.postRequest).caches (fun e => e.2.isEmpty) = true ∧
    (WebPages.Handler.run WebPages.Handler.pdf Samples.ranged []
        Samples.pdfRequest).fetches = [Samples.pdfRequest] ∧
    Samples.ranged Samples.pdfRequest = some Samples.partialContent ∧
    Samples.partialContent.ok = true ∧
    List.all (WebPages.Handler.run WebPages.Handler.pdf Samples.ranged []
        Samples.pdfRequest).caches (fun e => e.2.isEmpty) = true := by
  decide

end AndyLibrary
